import Mathlib

/-!
Shallow embedding of drivers/linux/eth/ionic/ionic_txrx.c: the receive and
transmit data path of the ionic network driver.  Pure Lean functions mirror
the C functions; mutation is explicit state passing, DMA mapping and page
allocation are driven by explicit outcome oracles, and machine indices are
Nat with the source's mask arithmetic kept as written.

Configuration constants that live outside the file under verification
(IONIC_PAGE_SIZE, IONIC_PAGE_SPLIT_SZ, the NUMA node id) are threaded as an
explicit environment.  The whole development models the IONIC_PAGE_ORDER = 0
build of the file (the preprocessor default), so the pagecnt_bias blocks that
are compiled out are not represented; page reference accounting is the
get_page path.
-/

namespace IonicTxRx

/-- ALIGN(x, a) from the kernel headers: round x up to the next multiple of
the (power-of-two) alignment a, written arithmetically. -/
def kalign (x a : Nat) : Nat := ((x + a - 1) / a) * a

/-- ETH_HLEN from the kernel headers. -/
def ETH_HLEN : Nat := 14

/-- Configuration constants referenced by ionic_txrx.c but defined in
headers outside src/: the allocation granule size, the sub-page split
alignment, and the NUMA node local to the consuming CPU (numa_mem_id()). -/
structure IonicEnv where
  page_size : Nat
  page_split_sz : Nat
  numa_node : Nat
deriving Repr, DecidableEq

/-- The relevant observable state of a struct page: whether it was allocated
under memory pressure (page_is_pfmemalloc), its NUMA node (page_to_nid), and
its reference count (adjusted by get_page). -/
structure Page where
  pfmemalloc : Bool
  nid : Nat
  refcount : Nat
deriving Repr, DecidableEq

/-- struct ionic_buf_info: backing page (none = empty), byte offset within
the granule, and the DMA device address of the mapping. -/
structure IonicBufInfo where
  page : Option Page
  page_offset : Nat
  dma_addr : Nat
deriving Repr, DecidableEq

instance : Inhabited IonicBufInfo := ⟨⟨none, 0, 0⟩⟩

/-- ionic_rx_buf_reset (ionic_txrx.c:44): empty the fragment. -/
def ionic_rx_buf_reset (_b : IonicBufInfo) : IonicBufInfo :=
  { page := none, page_offset := 0, dma_addr := 0 }

/-- Outcome of one alloc_pages + dma_map_page attempt, supplied by an
oracle: the allocation can fail, the DMA mapping can fail, or both succeed
yielding a page and a device address. -/
inductive AllocOutcome where
  | allocFail
  | mapFail (p : Page)
  | ok (p : Page) (dma : Nat)
deriving Repr, DecidableEq

/-- ionic_rx_page_alloc (ionic_txrx.c:54): allocate a page and map it for
DMA.  Returns (err, fragment): 0 on success; -ENOMEM (-12) when the page
allocation fails (fragment untouched); -EIO (-5) when the DMA mapping fails,
in which case the page is freed again and the fragment reset. -/
def ionic_rx_page_alloc (o : AllocOutcome) (b : IonicBufInfo) : Int × IonicBufInfo :=
  match o with
  | .allocFail => (-12, b)
  | .mapFail _p => (-5, ionic_rx_buf_reset b)
  | .ok p dma => (0, { b with page := some p, page_offset := 0, dma_addr := dma })

/-- ionic_rx_page_free (ionic_txrx.c:95): unmap the DMA mapping, free the
page and reset the fragment.  A fragment whose page is already null is left
alone (rate-limited log only, no state change). -/
def ionic_rx_page_free (b : IonicBufInfo) : IonicBufInfo :=
  match b.page with
  | none => b
  | some _ => ionic_rx_buf_reset b

/-- ionic_rx_buf_recycle (ionic_txrx.c:123): try to advance the fragment
past the consumed bytes and keep it for reuse without a fresh mapping.
Returns (reusable, fragment after the call).  Mirrors the source order:
pfmemalloc check, NUMA check, then the offset is advanced by
ALIGN(used, IONIC_PAGE_SPLIT_SZ) and refused if it reaches or passes
IONIC_PAGE_SIZE; on success a page reference is taken (get_page). -/
def ionic_rx_buf_recycle (env : IonicEnv) (b : IonicBufInfo) (used : Nat) :
    Bool × IonicBufInfo :=
  match b.page with
  | none => (false, b)
  | some p =>
    if p.pfmemalloc then (false, b)
    else if p.nid ≠ env.numa_node then (false, b)
    else
      let size := kalign used env.page_split_sz
      let b1 := { b with page_offset := b.page_offset + size }
      if env.page_size ≤ b1.page_offset then (false, b1)
      else (true, { b1 with page := some { p with refcount := p.refcount + 1 } })

/-- The fields of struct ionic_rxq_comp that the receive path reads: the
hardware status code, the frame length, the alternating done-color bit
carried in pkt_type_color, the completion index, and the number of extra
scatter-gather elements. -/
structure IonicRxqComp where
  status : Nat
  len : Nat
  color : Bool
  comp_index : Nat
  num_sg_elems : Nat
deriving Repr, DecidableEq

/-- Result of the fragment walk of ionic_rx_frags: the (offset, length)
pairs attached to the skb (none when the skb was dropped because a fragment
page was missing), the fragment states after the walk, and how many times
ionic_rx_buf_recycle was invoked. -/
structure RxFragsOut where
  skb : Option (List (Nat × Nat))
  bufs : List IonicBufInfo
  recycle_checks : Nat
deriving Repr, DecidableEq

/-- The do/while loop of ionic_rx_frags (ionic_txrx.c:179): walk
comp->num_sg_elems + 1 fragments, taking min(len, IONIC_PAGE_SIZE - offset)
bytes from each, attaching each slice to the skb, then either recycling the
fragment or unmapping and resetting it when recycling refuses.  A missing
page aborts the walk (the skb is freed); fragments already walked keep
their updated state, the rest are untouched. -/
def ionic_rx_frags_loop (env : IonicEnv) :
    Nat → Nat → List IonicBufInfo → RxFragsOut
  | _len, 0, bufs => ⟨some [], bufs, 0⟩
  | _len, _i + 1, [] => ⟨none, [], 0⟩
  | len, i + 1, b :: rest =>
    match b.page with
    | none => ⟨none, b :: rest, 0⟩
    | some _ =>
      let frag_len := min len (env.page_size - b.page_offset)
      let pr := ionic_rx_buf_recycle env b frag_len
      let b2 := if pr.1 then pr.2 else ionic_rx_buf_reset pr.2
      let r := ionic_rx_frags_loop env (len - frag_len) i rest
      match r.skb with
      | none => ⟨none, b2 :: r.bufs, r.recycle_checks + 1⟩
      | some fs => ⟨some ((b.page_offset, frag_len) :: fs), b2 :: r.bufs, r.recycle_checks + 1⟩

/-- ionic_rx_frags (ionic_txrx.c:149): build the zero-copy fragment-chain
skb.  napi_get_frags allocation failure is an oracle input. -/
def ionic_rx_frags (env : IonicEnv) (skb_alloc_ok : Bool) (num_sg_elems : Nat)
    (bufs : List IonicBufInfo) (len : Nat) : RxFragsOut :=
  if !skb_alloc_ok then ⟨none, bufs, 0⟩
  else ionic_rx_frags_loop env len (num_sg_elems + 1) bufs

/-- ionic_rx_copybreak (ionic_txrx.c:210): build a small linear skb by
copying len bytes out of the first fragment.  The fragment itself is left
exactly as it was (after a CPU/device sync round trip); in particular it is
never offered to ionic_rx_buf_recycle.  Returns the (offset, length) of the
copied region, or none when the skb allocation fails or the page is gone. -/
def ionic_rx_copybreak (skb_alloc_ok : Bool) (bufs : List IonicBufInfo)
    (len : Nat) : Option (Nat × Nat) :=
  if !skb_alloc_ok then none
  else
    match bufs with
    | [] => none
    | b :: _ =>
      match b.page with
      | none => none
      | some _ => some (b.page_offset, len)

/-- Which skb construction path ionic_rx_clean took. -/
inductive RxPath where
  | copy
  | frags
deriving Repr, DecidableEq

/-- Observable outcome of ionic_rx_clean: stats increments, whether a packet
object was delivered upstream (napi_gro_receive / napi_gro_frags), which
build path ran, how many recycle checks were made, and the fragment states
afterwards. -/
structure RxCleanResult where
  dropped : Nat
  pkts : Nat
  delivered : Bool
  path : Option RxPath
  recycle_checks : Nat
  bufs : List IonicBufInfo
deriving Repr, DecidableEq

/-- ionic_rx_clean (ionic_txrx.c:253): drop on a nonzero completion status,
during queue reset, or when the frame length exceeds netdev->mtu + ETH_HLEN;
otherwise build the skb by the copybreak path when len <= rx_copybreak and
by the fragment-chain path otherwise, dropping if the build fails.  The
checksum / hash / VLAN metadata handling only decorates the delivered skb
and is not represented. -/
def ionic_rx_clean (env : IonicEnv) (mtu rx_copybreak : Nat)
    (queue_reset skb_alloc_ok : Bool) (comp : IonicRxqComp)
    (bufs : List IonicBufInfo) : RxCleanResult :=
  if comp.status ≠ 0 then ⟨1, 0, false, none, 0, bufs⟩
  else if queue_reset then ⟨1, 0, false, none, 0, bufs⟩
  else if mtu + ETH_HLEN < comp.len then ⟨1, 0, false, none, 0, bufs⟩
  else if comp.len ≤ rx_copybreak then
    match ionic_rx_copybreak skb_alloc_ok bufs comp.len with
    | none => ⟨1, 1, false, some .copy, 0, bufs⟩
    | some _ => ⟨0, 1, true, some .copy, 0, bufs⟩
  else
    match ionic_rx_frags env skb_alloc_ok comp.num_sg_elems bufs comp.len with
    | ⟨none, bufs', n⟩ => ⟨1, 1, false, some .frags, n, bufs'⟩
    | ⟨some _, bufs', n⟩ => ⟨0, 1, true, some .frags, n, bufs'⟩

/-- struct ionic_queue, generic over the per-slot software metadata: the
ring size (a power of two in every configuration), the producer index
head_idx, the consumer index tail_idx, the metadata array info, the
per-descriptor scatter-gather limit, and the stop/drop/wake counters used
by the transmit flow-control path. -/
structure IonicQueue (α : Type) where
  num_descs : Nat
  head_idx : Nat
  tail_idx : Nat
  info : List α
  max_sg_elems : Nat
  stop : Nat
  drop : Nat
  wake : Nat
deriving Repr, DecidableEq

/-- Modelled from the spec: ionic_q_post lives in ionic_dev.c, which is not
under src/.  Spec 4.2, post(advance_doorbell, callback, callback_arg):
write the software metadata into the current head slot, advance head, and
optionally ring the doorbell; the Bool returned records whether the
doorbell was rung by this post. -/
def ionic_q_post {α : Type} (q : IonicQueue α) (ring_dbell : Bool) (d : α) :
    IonicQueue α × Bool :=
  ({ q with info := q.info.set q.head_idx d,
            head_idx := (q.head_idx + 1) &&& (q.num_descs - 1) }, ring_dbell)

/-- struct ionic_desc_info as the receive path uses it: the fixed completion
sequence index of the slot, the descriptor contents written by
ionic_rx_fill (main address/length, scatter-gather elements, opcode,
npages), the owned buffer fragments, and the callback argument. -/
structure RxDescInfo where
  index : Nat
  desc_addr : Nat
  desc_len : Nat
  sg_elems : List (Nat × Nat)
  opcode : Nat
  npages : Nat
  bufs : List IonicBufInfo
  cb_arg : Option Nat
deriving Repr, DecidableEq

instance : Inhabited RxDescInfo := ⟨⟨0, 0, 0, [], 0, 0, [], none⟩⟩

/-- ionic_rx_service (ionic_txrx.c:364): the receive completion handler.
Returns (made progress, queue afterwards, result of ionic_rx_clean when it
ran).  The completion is filtered out — no work, no state change — when its
color does not match the expected done color, when the ring is empty
(tail == head), or when its completion index does not match the index of
the oldest in-flight slot; otherwise tail advances by one and the slot is
cleaned. -/
def ionic_rx_service (env : IonicEnv) (mtu rx_copybreak : Nat)
    (queue_reset skb_alloc_ok : Bool) (done_color : Bool)
    (comp : IonicRxqComp) (q : IonicQueue RxDescInfo) :
    Bool × IonicQueue RxDescInfo × Option RxCleanResult :=
  if comp.color ≠ done_color then (false, q, none)
  else if q.tail_idx = q.head_idx then (false, q, none)
  else if (q.info.getD q.tail_idx default).index ≠ comp.comp_index then
    (false, q, none)
  else
    (true,
     { q with tail_idx := (q.tail_idx + 1) &&& (q.num_descs - 1),
              info := q.info.set q.tail_idx
                { q.info.getD q.tail_idx default with
                  bufs := (ionic_rx_clean env mtu rx_copybreak queue_reset
                    skb_alloc_ok comp
                    (q.info.getD q.tail_idx default).bufs).bufs,
                  cb_arg := none } },
     some (ionic_rx_clean env mtu rx_copybreak queue_reset skb_alloc_ok comp
       (q.info.getD q.tail_idx default).bufs))

/-- Modelled from the spec: ionic_q_space_avail lives in ionic_dev.h, which
is not under src/.  Spec 4.2, space_available(): number of free slots =
N - in-flight count, expressed so the ring is always considered full one
slot early. -/
def ionic_q_space_avail {α : Type} (q : IonicQueue α) : Nat :=
  q.num_descs - 1 - ((q.head_idx + q.num_descs - q.tail_idx) % q.num_descs)

/-- Modelled from the spec: ionic_q_has_space lives in ionic_dev.h, which is
not under src/.  Spec 4.2, has_space(n): predicate used before committing a
multi-descriptor post. -/
def ionic_q_has_space {α : Type} (q : IonicQueue α) (want : Nat) : Bool :=
  want ≤ ionic_q_space_avail q

/-- ionic_rx_page_alloc guarded by the "alloc a new buffer?" check of
ionic_rx_fill: a fragment that still has a page is reused as is, an empty
one consumes the next allocation-oracle entry.  Returns
(err, fragment, remaining oracle). -/
def ionic_rx_fill_alloc (oracle : List AllocOutcome) (b : IonicBufInfo) :
    Int × IonicBufInfo × List AllocOutcome :=
  match b.page with
  | some _ => (0, b, oracle)
  | none =>
    match oracle with
    | [] => (-12, b, [])
    | o :: os =>
      let (e, b') := ionic_rx_page_alloc o b
      (e, b', os)

/-- The scatter-gather loop of ionic_rx_fill (ionic_txrx.c:456): while
payload bytes remain and the per-descriptor limit is not reached, allocate
the fragment if needed and write one scatter-gather element.  Returns
(failed, elements written — the last one zeroed on failure —, fragment
states, remaining oracle). -/
def ionic_rx_fill_sg (env : IonicEnv) (max_sg_elems : Nat) :
    List AllocOutcome → Nat → Nat → List IonicBufInfo →
    Bool × List (Nat × Nat) × List IonicBufInfo × List AllocOutcome
  | oracle, _remain, _j, [] => (false, [], [], oracle)
  | oracle, remain, j, b :: rest =>
    if remain = 0 ∨ max_sg_elems ≤ j then (false, [], b :: rest, oracle)
    else
      let (err, b1, oracle') := ionic_rx_fill_alloc oracle b
      if err ≠ 0 then (true, [(0, 0)], b1 :: rest, oracle')
      else
        let frag_len := min remain (env.page_size - b1.page_offset)
        let elem := (b1.dma_addr + b1.page_offset, frag_len)
        let (failed, elems, bufs', oracle'') :=
          ionic_rx_fill_sg env max_sg_elems oracle' (remain - frag_len) (j + 1) rest
        (failed, elem :: elems, b1 :: bufs', oracle'')

/-- One slot of ionic_rx_fill (ionic_txrx.c:429-478): allocate the main
fragment if empty (on failure the main descriptor address and length are
zeroed), write the main descriptor, then the scatter-gather elements (on
failure there the element being written is zeroed), and finally the opcode
(SG when more than one fragment, SIMPLE otherwise) and npages.  Returns
(failed, slot afterwards, remaining oracle). -/
def ionic_rx_fill_slot (env : IonicEnv) (max_sg_elems len : Nat)
    (oracle : List AllocOutcome) (d : RxDescInfo) :
    Bool × RxDescInfo × List AllocOutcome :=
  match d.bufs with
  | [] => (true, { d with desc_addr := 0, desc_len := 0 }, oracle)
  | b :: rest =>
    let (err, b1, oracle') := ionic_rx_fill_alloc oracle b
    if err ≠ 0 then
      (true, { d with desc_addr := 0, desc_len := 0, bufs := b1 :: rest }, oracle')
    else
      let frag_len := min len (env.page_size - b1.page_offset)
      let remain := len - frag_len
      let (failed, elems, bufs', oracle'') :=
        ionic_rx_fill_sg env max_sg_elems oracle' remain 0 rest
      if failed then
        (true,
         { d with desc_addr := b1.dma_addr + b1.page_offset,
                  desc_len := frag_len,
                  sg_elems := elems,
                  bufs := b1 :: bufs' },
         oracle'')
      else
        let nfrags := 1 + elems.length
        (false,
         { d with desc_addr := b1.dma_addr + b1.page_offset,
                  desc_len := frag_len,
                  sg_elems := elems,
                  opcode := if 1 < nfrags then 1 else 0,
                  npages := nfrags,
                  bufs := b1 :: bufs',
                  cb_arg := none },
         oracle'')

/-- The slot loop of ionic_rx_fill (ionic_txrx.c:426): run
ionic_q_space_avail(q) slot fills, posting each without a doorbell; stop
dead on the first allocation failure.  Returns (aborted, queue, oracle). -/
def ionic_rx_fill_loop (env : IonicEnv) (len : Nat) :
    Nat → IonicQueue RxDescInfo → List AllocOutcome →
    Bool × IonicQueue RxDescInfo × List AllocOutcome
  | 0, q, oracle => (false, q, oracle)
  | i + 1, q, oracle =>
    let d := q.info.getD q.head_idx default
    let (failed, d', oracle') := ionic_rx_fill_slot env q.max_sg_elems len oracle d
    if failed then
      (true, { q with info := q.info.set q.head_idx d' }, oracle')
    else
      let (q', _) := ionic_q_post q false d'
      ionic_rx_fill_loop env len i q' oracle'

/-- ionic_rx_fill (ionic_txrx.c:405): fill every free slot with mapped
buffer fragments, then ring the doorbell once for the whole pass.  The
returned Bool rang is whether the doorbell was rung: a pass that aborts on
an allocation failure returns before reaching the doorbell. -/
def ionic_rx_fill (env : IonicEnv) (mtu : Nat) (q : IonicQueue RxDescInfo)
    (oracle : List AllocOutcome) :
    Bool × Bool × IonicQueue RxDescInfo × List AllocOutcome :=
  match ionic_rx_fill_loop env (mtu + ETH_HLEN) (ionic_q_space_avail q) q
      oracle with
  | (aborted, q', oracle') =>
    if aborted then (true, false, q', oracle')
    else (false, true, q', oracle')

/-- Transmit descriptor command opcodes (fixed hardware values from
ionic_if.h, outside src/): CSUM_NONE = 0, CSUM_PARTIAL-style offload = 1,
TSO = 3. -/
def IONIC_TXQ_DESC_OPCODE_CSUM_NONE : Nat := 0

/-- The checksum-offload opcode (value 1 in ionic_if.h). -/
def IONIC_TXQ_DESC_OPCODE_CSUM_OFFLOAD : Nat := 1

/-- The segmentation-offload opcode (value 3 in ionic_if.h). -/
def IONIC_TXQ_DESC_OPCODE_TSO : Nat := 3

/-- Transmit descriptor flag bits (ionic_if.h, outside src/). -/
def IONIC_TXQ_DESC_FLAG_VLAN : Nat := 1

/-- Encapsulation / outer-checksum flag bit. -/
def IONIC_TXQ_DESC_FLAG_ENCAP : Nat := 2

/-- TSO start-of-transmission flag bit. -/
def IONIC_TXQ_DESC_FLAG_TSO_SOT : Nat := 4

/-- TSO end-of-transmission flag bit. -/
def IONIC_TXQ_DESC_FLAG_TSO_EOT : Nat := 8

/-- struct ionic_desc_info as the transmit path uses it: the fixed
completion sequence index of the slot, the descriptor fields that
encode_txq_desc_cmd packs into the hardware command word (opcode, flags,
nsge, address) plus the length, the scatter-gather elements of the
companion sg descriptor as (address, length) pairs, the completion
callback argument (the skb, identified by a number), and the byte count
kept for backpressure accounting. -/
structure TxDescInfo where
  index : Nat
  opcode : Nat
  flags : Nat
  addr : Nat
  len : Nat
  nsge : Nat
  elems : List (Nat × Nat)
  cb_arg : Option Nat
  bytes : Nat
  vlan_tci : Nat
  hdr_len : Nat
  mss : Nat
  csum_start : Nat
  csum_offset : Nat
deriving Repr, DecidableEq

instance : Inhabited TxDescInfo := ⟨⟨0, 0, 0, 0, 0, 0, [], none, 0, 0, 0, 0, 0, 0⟩⟩

/-- The outbound packet as the transmit path reads it: total length,
linear-header length, payload fragment sizes, the segmentation size
(gso_size, 0 when the packet is not segmented), the transport header
length the TSO path computes from the packet headers, an identifier
standing for the sk_buff pointer, and the offload request bits. -/
structure TxSkb where
  id : Nat
  len : Nat
  headlen : Nat
  frags : List Nat
  gso_size : Nat
  hdrlen : Nat
  csum_offload : Bool
  has_vlan : Bool
  vlan_tci : Nat
  encap : Bool
  outer_csum : Bool
  csum_start : Nat
  csum_offset : Nat
deriving Repr, DecidableEq

/-- The DMA mapping state threaded through transmit encoding: the oracle of
outcomes of the next dma_map_single / skb_frag_dma_map calls (some addr =
that device address, none = dma_mapping_error), and the multiset of device
addresses currently mapped. -/
structure TxEncState where
  oracle : List (Option Nat)
  active : List Nat
deriving Repr, DecidableEq

/-- ionic_tx_map_single / ionic_tx_map_frag (ionic_txrx.c:668, 685): one
DMA mapping attempt.  Consumes the next oracle entry; on success the
address becomes active. -/
def ionic_tx_map (st : TxEncState) : Option Nat × TxEncState :=
  match st.oracle with
  | [] => (none, { st with oracle := [] })
  | o :: os =>
    match o with
    | none => (none, { st with oracle := os })
    | some a => (some a, { oracle := os, active := a :: st.active })

/-- ionic_tx_clean (ionic_txrx.c:702): completion-style cleanup of one
descriptor.  The main buffer is unmapped (dma_unmap_single for non-TSO
descriptors and TSO first descriptors, dma_unmap_page otherwise — both
remove the mapping), every scatter-gather element is unmapped, and when a
callback argument is present that skb is released (dev_kfree_skb_any) and
the subqueue woken if it was stopped.  Returns (active mappings afterwards,
skb released by this call if any). -/
def ionic_tx_clean (active : List Nat) (d : TxDescInfo) (cb_arg : Option Nat) :
    List Nat × Option Nat :=
  let active1 := active.erase d.addr
  let active2 := d.elems.foldl (fun a e => a.erase e.1) active1
  (active2, cb_arg)

/-- The per-pop queue update of the ionic_tx_service loop: advance tail
past the oldest in-flight slot and clear that slot's bytes and callback
fields (desc_info->bytes = 0 before the clean, cb = cb_arg = NULL after;
the skb-length value the clean stores back into bytes for byte-queue-limit
accounting is not tracked). -/
def ionic_tx_service_pop (q : IonicQueue TxDescInfo) : IonicQueue TxDescInfo :=
  { q with tail_idx := (q.tail_idx + 1) &&& (q.num_descs - 1),
           info := q.info.set q.tail_idx
             { q.info.getD q.tail_idx default with bytes := 0, cb_arg := none } }

/-- The do/while loop of ionic_tx_service (ionic_txrx.c:766): pop the
oldest in-flight slot, advance tail, clean it, and repeat until the popped
slot's sequence index matches the completion index.  The fuel argument
bounds the loop (the caller passes the ring size; under the ring invariant
the matching slot is within the in-flight span).  Returns (queue, active
mappings, the cb_arg released by each pop in order). -/
def ionic_tx_service_loop (comp_index : Nat) :
    Nat → IonicQueue TxDescInfo → List Nat →
    IonicQueue TxDescInfo × List Nat × List (Option Nat)
  | 0, q, active => (q, active, [])
  | fuel + 1, q, active =>
    if (q.info.getD q.tail_idx default).index = comp_index then
      (ionic_tx_service_pop q,
       (ionic_tx_clean active
         { q.info.getD q.tail_idx default with bytes := 0 }
         (q.info.getD q.tail_idx default).cb_arg).1,
       [(q.info.getD q.tail_idx default).cb_arg])
    else
      ((ionic_tx_service_loop comp_index fuel (ionic_tx_service_pop q)
         (ionic_tx_clean active
           { q.info.getD q.tail_idx default with bytes := 0 }
           (q.info.getD q.tail_idx default).cb_arg).1).1,
       (ionic_tx_service_loop comp_index fuel (ionic_tx_service_pop q)
         (ionic_tx_clean active
           { q.info.getD q.tail_idx default with bytes := 0 }
           (q.info.getD q.tail_idx default).cb_arg).1).2.1,
       (q.info.getD q.tail_idx default).cb_arg ::
       (ionic_tx_service_loop comp_index fuel (ionic_tx_service_pop q)
         (ionic_tx_clean active
           { q.info.getD q.tail_idx default with bytes := 0 }
           (q.info.getD q.tail_idx default).cb_arg).1).2.2)

/-- ionic_tx_service (ionic_txrx.c:750): the transmit completion handler.
Filters the entry when its color does not match the expected done color;
otherwise runs the pop loop, so one completion entry may close several
in-flight descriptors. -/
def ionic_tx_service (done_color comp_color : Bool) (comp_index : Nat)
    (q : IonicQueue TxDescInfo) (active : List Nat) :
    Bool × IonicQueue TxDescInfo × List Nat × List (Option Nat) :=
  if comp_color ≠ done_color then (false, q, active, [])
  else
    let r := ionic_tx_service_loop comp_index q.num_descs q active
    (true, r.1, r.2.1, r.2.2)

/-- ionic_tx_descs_needed (ionic_txrx.c:1259): the descriptor budget
estimate.  TSO packets get skb->len / gso_size + 1 (integer division);
non-TSO packets get 1 when the fragment count fits the per-descriptor
scatter-gather limit, and are otherwise linearized first (counted) and then
also get 1.  Returns (estimate or negative error, possibly linearized skb,
linearize counter increment). -/
def ionic_tx_descs_needed (max_sg_elems : Nat) (linearize_ok : Bool)
    (skb : TxSkb) : Int × TxSkb × Nat :=
  if skb.gso_size ≠ 0 then (Int.ofNat (skb.len / skb.gso_size + 1), skb, 0)
  else if skb.frags.length ≤ max_sg_elems then (1, skb, 0)
  else if linearize_ok then (1, { skb with headlen := skb.len, frags := [] }, 1)
  else (-12, skb, 0)

/-- Result of ionic_maybe_stop_tx: the return value (1 = stopped), the
queue with its stop counter updated, whether the netdev subqueue ends up
stopped, and whether the post-barrier re-check actually ran. -/
structure StopTxOut where
  stopped : Nat
  q : IonicQueue TxDescInfo
  subq_stopped : Bool
  rechecked : Bool
deriving Repr, DecidableEq

/-- ionic_maybe_stop_tx (ionic_txrx.c:1283): if the ring lacks space for
ndescs descriptors, stop the subqueue, then — because this can race with
ionic_tx_clean — re-check once after an smp_rmb barrier and wake the
subqueue again if space appeared.  The two queue arguments are the views
observed by the first check and by the re-check after the barrier; a
sequential caller passes the same queue twice. -/
def ionic_maybe_stop_tx (q qAfterBarrier : IonicQueue TxDescInfo)
    (subq_stopped : Bool) (ndescs : Nat) : StopTxOut :=
  if ionic_q_has_space q ndescs then
    { stopped := 0, q := q, subq_stopped := subq_stopped, rechecked := false }
  else
    let q1 := { q with stop := q.stop + 1 }
    if ionic_q_has_space qAfterBarrier ndescs then
      { stopped := 0, q := q1, subq_stopped := false, rechecked := true }
    else
      { stopped := 1, q := q1, subq_stopped := true, rechecked := true }

/-- ionic_tx_tso_post (ionic_txrx.c:882): fill in one TSO descriptor in the
current head slot and post it.  The flags carry VLAN/ENCAP and the
SOT (start) / EOT (done) markers; the skb is attached as the callback
argument only when this is the done descriptor, and only the done
descriptor may ring the doorbell (when the upstream caller is not
batching more packets).  Returns (queue, doorbell rung). -/
def ionic_tx_tso_post (q : IonicQueue TxDescInfo) (skb : TxSkb)
    (addr nsge len : Nat) (elems : List (Nat × Nat)) (hdrlen mss : Nat)
    (outer_csum : Bool) (vlan_tci : Nat) (has_vlan start done : Bool)
    (xmit_more : Bool) : IonicQueue TxDescInfo × Bool :=
  let flags :=
    (if has_vlan then IONIC_TXQ_DESC_FLAG_VLAN else 0) |||
    (if outer_csum then IONIC_TXQ_DESC_FLAG_ENCAP else 0) |||
    (if start then IONIC_TXQ_DESC_FLAG_TSO_SOT else 0) |||
    (if done then IONIC_TXQ_DESC_FLAG_TSO_EOT else 0)
  let slot := q.info.getD q.head_idx default
  let d : TxDescInfo :=
    { index := slot.index, opcode := IONIC_TXQ_DESC_OPCODE_TSO,
      flags := flags, addr := addr, len := len, nsge := nsge,
      elems := elems, cb_arg := if done then some skb.id else none,
      bytes := slot.bytes, vlan_tci := vlan_tci, hdr_len := hdrlen,
      mss := mss, csum_start := 0, csum_offset := 0 }
  ionic_q_post q (if done then !xmit_more else false) d

/-- The state the TSO encoder threads between loop iterations: the queue,
the mapping state, the scatter-gather elements accumulated for the current
(not yet posted) descriptor, the current descriptor's address / length /
element count, the room left in the current segment (frag_left), the
start flag, and the posted/doorbell/statistics accumulators. -/
structure TsoCarry where
  q : IonicQueue TxDescInfo
  st : TxEncState
  elems : List (Nat × Nat)
  desc_addr : Nat
  desc_len : Nat
  desc_nsge : Nat
  frag_left : Nat
  start : Bool
  posted : Nat
  dbell : Bool
  total_pkts : Nat
  total_bytes : Nat
deriving Repr, DecidableEq

/-- What the TSO encoder hands to the err_out_abort path when a DMA mapping
fails: the queue and mapping state at the failure point and the
posted/doorbell accumulators. -/
structure TsoFail where
  q : IonicQueue TxDescInfo
  st : TxEncState
  posted : Nat
  dbell : Bool
deriving Repr, DecidableEq

/-- Shared tail of each ionic_tx_tso loop iteration, after the bookkeeping
of a mapped piece: either continue filling the current segment
(nfrags > 0 && frag_left > 0) or post the current descriptor via
ionic_tx_tso_post, with done when nothing of the packet remains. -/
def ionic_tx_tso_step (skb : TxSkb) (hdrlen mss : Nat) (xmit_more : Bool)
    (nfrags left' len : Nat) (c : TsoCarry) : Bool × TsoCarry :=
  if 0 < nfrags ∧ 0 < c.frag_left then (false, c)
  else
    let done := nfrags = 0 ∧ left' = 0
    let (q', db) := ionic_tx_tso_post c.q skb c.desc_addr c.desc_nsge c.desc_len
      c.elems hdrlen mss skb.outer_csum skb.vlan_tci skb.has_vlan c.start done
      xmit_more
    (true,
     { c with q := q', elems := [], posted := c.posted + 1,
              dbell := c.dbell || db, start := false,
              total_pkts := c.total_pkts + 1,
              total_bytes := c.total_bytes +
                (if c.start then len else len + hdrlen) })

/-- The first loop of ionic_tx_tso (ionic_txrx.c:999): chop the linear
header region into descriptor segments.  Arguments beyond the carry:
remaining linear bytes, offset into the linear data, and the current
segment length (hdrlen + mss for the first segment, mss afterwards). -/
def ionic_tx_tso_loop1 (skb : TxSkb) (hdrlen mss nfrags : Nat)
    (xmit_more : Bool) :
    Nat → Nat → Nat → Nat → TsoCarry → Except TsoFail TsoCarry
  | 0, _left, _offset, _seglen, c =>
    .error ⟨c.q, c.st, c.posted, c.dbell⟩
  | fuel + 1, left, offset, seglen, c =>
    if left = 0 then .ok c
    else
      let len := min seglen left
      let frag_left := seglen - len
      match ionic_tx_map c.st with
      | (none, st') => .error ⟨c.q, st', c.posted, c.dbell⟩
      | (some addr, st') =>
        let c1 := { c with st := st', desc_addr := addr, desc_len := len,
                           desc_nsge := 0, frag_left := frag_left }
        let left' := left - len
        let offset' := offset + len
        let (postedNow, c2) :=
          ionic_tx_tso_step skb hdrlen mss xmit_more nfrags left' len c1
        ionic_tx_tso_loop1 skb hdrlen mss nfrags xmit_more fuel left' offset'
          (if postedNow then mss else seglen) c2

/-- The inner while loop of the second ionic_tx_tso loop
(ionic_txrx.c:1035): chop one payload fragment.  While the current segment
still has room (frag_left > 0) the mapped piece becomes a scatter-gather
element of the current descriptor; otherwise it starts a new descriptor of
up to mss bytes. -/
def ionic_tx_tso_loop2_inner (skb : TxSkb) (hdrlen mss : Nat)
    (xmit_more : Bool) (nfrags : Nat) :
    Nat → Nat → Nat → TsoCarry → Except TsoFail TsoCarry
  | 0, _left, _offset, c => .error ⟨c.q, c.st, c.posted, c.dbell⟩
  | fuel + 1, left, offset, c =>
    if left = 0 then .ok c
    else if 0 < c.frag_left then
      let len := min c.frag_left left
      match ionic_tx_map c.st with
      | (none, st') => .error ⟨c.q, st', c.posted, c.dbell⟩
      | (some addr, st') =>
        let c1 := { c with st := st', elems := c.elems ++ [(addr, len)],
                           desc_nsge := c.desc_nsge + 1,
                           frag_left := c.frag_left - len }
        let left' := left - len
        let offset' := offset + len
        let (_, c2) :=
          ionic_tx_tso_step skb hdrlen mss xmit_more nfrags left' len c1
        ionic_tx_tso_loop2_inner skb hdrlen mss xmit_more nfrags fuel left'
          offset' c2
    else
      let len := min mss left
      match ionic_tx_map c.st with
      | (none, st') => .error ⟨c.q, st', c.posted, c.dbell⟩
      | (some addr, st') =>
        let c1 := { c with st := st', desc_addr := addr, desc_len := len,
                           desc_nsge := 0, frag_left := mss - len }
        let left' := left - len
        let offset' := offset + len
        let (_, c2) :=
          ionic_tx_tso_step skb hdrlen mss xmit_more nfrags left' len c1
        ionic_tx_tso_loop2_inner skb hdrlen mss xmit_more nfrags fuel left'
          offset' c2

/-- The outer for loop of the second ionic_tx_tso loop (ionic_txrx.c:1027):
one payload fragment at a time while payload bytes remain, decrementing the
outstanding fragment count before chopping the fragment. -/
def ionic_tx_tso_loop2 (skb : TxSkb) (hdrlen mss : Nat) (xmit_more : Bool) :
    Nat → List Nat → Nat → Nat → TsoCarry → Except TsoFail TsoCarry
  | 0, _frags, _len_left, _nfrags, c =>
    .error ⟨c.q, c.st, c.posted, c.dbell⟩
  | _fuel + 1, [], _len_left, _nfrags, c => .ok c
  | fuel + 1, f :: rest, len_left, nfrags, c =>
    if len_left = 0 then .ok c
    else
      let nfrags' := nfrags - 1
      match ionic_tx_tso_loop2_inner skb hdrlen mss xmit_more nfrags'
          (f + 1) f 0 c with
      | .error e => .error e
      | .ok c' =>
        ionic_tx_tso_loop2 skb hdrlen mss xmit_more fuel rest
          (len_left - f) nfrags' c'

/-- The err_out_abort rewind loop of ionic_tx_tso (ionic_txrx.c:1096): walk
from the saved pre-packet head index up to the current head index, invoking
ionic_tx_clean with a NULL callback argument on each slot posted for this
packet. -/
def ionic_tx_tso_rewind (q : IonicQueue TxDescInfo) :
    Nat → Nat → List Nat → List Nat
  | 0, _rewind, active => active
  | fuel + 1, rewind, active =>
    if rewind = q.head_idx then active
    else
      let d := q.info.getD rewind default
      let (active', _) := ionic_tx_clean active d none
      ionic_tx_tso_rewind q fuel ((rewind + 1) &&& (q.num_descs - 1)) active'

/-- Result of one transmit encoding attempt (ionic_tx / ionic_tx_tso): the
error code (0 on success), the queue, the mapping state, whether the
doorbell was rung, and how many descriptors were posted (descriptors
rolled back by the TSO abort path are still counted here; the queue's head
index tells the net effect). -/
structure TxResult where
  err : Int
  q : IonicQueue TxDescInfo
  st : TxEncState
  dbell : Bool
  posted : Nat
deriving Repr, DecidableEq

/-- The two chopping loops of ionic_tx_tso run in sequence: the linear
header region first (starting with segment length hdrlen + mss and the
start flag set), then the payload fragments.  The fuel of each loop covers
every terminating run (one unit per iteration; the loops consume at least
one byte per iteration whenever mss is positive). -/
def ionic_tx_tso_encode (q : IonicQueue TxDescInfo) (skb : TxSkb)
    (st : TxEncState) (xmit_more : Bool) : Except TsoFail TsoCarry :=
  match ionic_tx_tso_loop1 skb skb.hdrlen skb.gso_size skb.frags.length
      xmit_more (skb.headlen + 1) skb.headlen 0 (skb.hdrlen + skb.gso_size)
      ⟨q, st, [], 0, 0, 0, 0, true, 0, false, 0, 0⟩ with
  | .error e => .error e
  | .ok c1 =>
    ionic_tx_tso_loop2 skb skb.hdrlen skb.gso_size xmit_more
      (skb.len + skb.frags.length + 2) skb.frags (skb.len - skb.headlen)
      skb.frags.length c1

/-- ionic_tx_tso (ionic_txrx.c:933): encode one segmentation-offload
packet.  The pseudo-header checksum preseeding (skb_cow_head) can fail,
which is the cow_ok oracle; any DMA mapping failure in the two chopping
loops lands in err_out_abort, which cleans every descriptor posted since
entry (rewinding from the saved pre-packet head) and restores head to its
pre-packet value. -/
def ionic_tx_tso (q : IonicQueue TxDescInfo) (skb : TxSkb) (st : TxEncState)
    (cow_ok xmit_more : Bool) : TxResult :=
  if !cow_ok then ⟨-12, q, st, false, 0⟩
  else
    match ionic_tx_tso_encode q skb st xmit_more with
    | .error e =>
      ⟨-12, { e.q with head_idx := q.head_idx },
       { oracle := e.st.oracle,
         active := ionic_tx_tso_rewind e.q (e.q.num_descs + 1) q.head_idx
           e.st.active },
       e.dbell, e.posted⟩
    | .ok c =>
      ⟨0, c.q, c.st, c.dbell, c.posted⟩

/-- ionic_tx_calc_csum (ionic_txrx.c:1106): map the linear header region
and build the checksum-offload initial descriptor (opcode 1, VLAN/ENCAP
flags, csum start/offset from the skb).  The descriptor is written into
the head slot's memory but the slot is not posted here.  Returns none on a
mapping failure. -/
def ionic_tx_calc_csum (skb : TxSkb) (st : TxEncState) :
    Option TxDescInfo × TxEncState :=
  match ionic_tx_map st with
  | (none, st') => (none, st')
  | (some dma_addr, st') =>
    let flags :=
      (if skb.has_vlan then IONIC_TXQ_DESC_FLAG_VLAN else 0) |||
      (if skb.encap then IONIC_TXQ_DESC_FLAG_ENCAP else 0)
    (some { index := 0, opcode := IONIC_TXQ_DESC_OPCODE_CSUM_OFFLOAD,
            flags := flags, addr := dma_addr, len := skb.headlen,
            nsge := skb.frags.length, elems := [], cb_arg := none, bytes := 0,
            vlan_tci := if skb.has_vlan then skb.vlan_tci else 0,
            hdr_len := 0, mss := 0,
            csum_start := skb.csum_start, csum_offset := skb.csum_offset },
     st')

/-- ionic_tx_calc_no_csum (ionic_txrx.c:1154): same as ionic_tx_calc_csum
but with the no-checksum opcode (0) and no checksum fields. -/
def ionic_tx_calc_no_csum (skb : TxSkb) (st : TxEncState) :
    Option TxDescInfo × TxEncState :=
  match ionic_tx_map st with
  | (none, st') => (none, st')
  | (some dma_addr, st') =>
    let flags :=
      (if skb.has_vlan then IONIC_TXQ_DESC_FLAG_VLAN else 0) |||
      (if skb.encap then IONIC_TXQ_DESC_FLAG_ENCAP else 0)
    (some { index := 0, opcode := IONIC_TXQ_DESC_OPCODE_CSUM_NONE,
            flags := flags, addr := dma_addr, len := skb.headlen,
            nsge := skb.frags.length, elems := [], cb_arg := none, bytes := 0,
            vlan_tci := if skb.has_vlan then skb.vlan_tci else 0,
            hdr_len := 0, mss := 0, csum_start := 0, csum_offset := 0 },
     st')

/-- ionic_tx_skb_frags (ionic_txrx.c:1195): map each payload fragment and
write it as a scatter-gather element, walking while payload bytes remain.
On a mapping failure the loop returns -ENOMEM at once: the elements mapped
before the failure stay mapped and nothing unwinds them.  Returns
(elements on success, mapping state). -/
def ionic_tx_skb_frags (st : TxEncState) :
    List Nat → Nat → Option (List (Nat × Nat)) × TxEncState
  | _frags, 0 => (some [], st)
  | [], _len_left + 1 => (some [], st)
  | f :: rest, len_left + 1 =>
    match ionic_tx_map st with
    | (none, st') => (none, st')
    | (some dma_addr, st') =>
      match ionic_tx_skb_frags st' rest (len_left + 1 - f) with
      | (none, st'') => (none, st'')
      | (some elems, st'') => (some ((dma_addr, f) :: elems), st'')

/-- ionic_tx (ionic_txrx.c:1224): encode one non-segmented packet — the
initial descriptor via the checksum or no-checksum builder, then the
scatter-gather fragments, then a single post carrying the skb as callback
argument, ringing the doorbell unless the upstream caller has more packets
coming.  On any mapping failure the error is returned with nothing posted
and nothing unmapped. -/
def ionic_tx (q : IonicQueue TxDescInfo) (skb : TxSkb) (st : TxEncState)
    (xmit_more : Bool) : TxResult :=
  match (if skb.csum_offload then ionic_tx_calc_csum skb st
         else ionic_tx_calc_no_csum skb st) with
  | (none, st1) => ⟨-12, q, st1, false, 0⟩
  | (some d, st1) =>
    match ionic_tx_skb_frags st1 skb.frags (skb.len - skb.headlen) with
    | (none, st2) => ⟨-12, q, st2, false, 0⟩
    | (some elems, st2) =>
      ⟨0,
       (ionic_q_post q (!xmit_more)
         { d with index := (q.info.getD q.head_idx default).index,
                  elems := elems, cb_arg := some skb.id }).1,
       st2,
       (ionic_q_post q (!xmit_more)
         { d with index := (q.info.getD q.head_idx default).index,
                  elems := elems, cb_arg := some skb.id }).2,
       1⟩

/-- Observable outcome of ionic_start_xmit: the netdev return value
(0 = NETDEV_TX_OK, 1 = NETDEV_TX_BUSY), the queue, the mapping state,
whether the skb was freed by the driver, whether the netdev subqueue ends
up stopped, the number of ionic_txq_post calls made, and whether the
doorbell was rung. -/
structure XmitResult where
  ret : Nat
  q : IonicQueue TxDescInfo
  st : TxEncState
  skb_freed : Bool
  subq_stopped : Bool
  posted : Nat
  dbell : Bool
deriving Repr, DecidableEq

/-- NETDEV_TX_BUSY. -/
def NETDEV_TX_BUSY : Nat := 1

/-- NETDEV_TX_OK. -/
def NETDEV_TX_OK : Nat := 0

/-- ionic_start_xmit (ionic_txrx.c:1328): the send entry point.  Drops the
skb when the interface is down; estimates the descriptor budget (dropping
on a linearize failure); returns NETDEV_TX_BUSY without touching the ring
when ionic_maybe_stop_tx reports the ring full; otherwise encodes via the
TSO or the plain path, dropping the skb on an encoding error; and finally
re-runs ionic_maybe_stop_tx with a 4-descriptor headroom for the next
packet. -/
def ionic_start_xmit (lif_up : Bool) (skb : TxSkb)
    (q : IonicQueue TxDescInfo) (st : TxEncState)
    (subq_stopped xmit_more linearize_ok cow_ok : Bool) : XmitResult :=
  if !lif_up then
    ⟨NETDEV_TX_OK, q, st, true, subq_stopped, 0, false⟩
  else
    let (nd, skb1, _lin) := ionic_tx_descs_needed q.max_sg_elems linearize_ok skb
    if nd < 0 then
      ⟨NETDEV_TX_OK, { q with stop := q.stop + 1, drop := q.drop + 1 }, st,
       true, subq_stopped, 0, false⟩
    else
      let ms := ionic_maybe_stop_tx q q subq_stopped nd.toNat
      if ms.stopped ≠ 0 then
        ⟨NETDEV_TX_BUSY, ms.q, st, false, ms.subq_stopped, 0, false⟩
      else
        let r :=
          if skb1.gso_size ≠ 0 then ionic_tx_tso ms.q skb1 st cow_ok xmit_more
          else ionic_tx ms.q skb1 st xmit_more
        if r.err ≠ 0 then
          ⟨NETDEV_TX_OK,
           { r.q with stop := r.q.stop + 1, drop := r.q.drop + 1 }, r.st,
           true, ms.subq_stopped, r.posted, r.dbell⟩
        else
          let ms2 := ionic_maybe_stop_tx r.q r.q ms.subq_stopped 4
          ⟨NETDEV_TX_OK, ms2.q, r.st, false, ms2.subq_stopped, r.posted,
           r.dbell⟩

/-- The empty fragment state. -/
def emptyBuf : IonicBufInfo := ⟨none, 0, 0⟩

/-- C6 counterexample: the claim says recycling is refused exactly when the
page is pfmemalloc, or non-local, or the advanced offset would exceed
(strictly) the granule size.  With page size 4096, split 2048, a local
non-pfmemalloc page at offset 2048 and 1 consumed byte, the advanced
offset is exactly 4096 — it does not exceed the granule size, and none of
the claim's three refusal conditions holds — yet ionic_rx_buf_recycle
refuses (the source refuses at page_offset >= IONIC_PAGE_SIZE, reaching
the boundary included). -/
theorem C6_counterexample :
    (ionic_rx_buf_recycle ⟨4096, 2048, 0⟩
        ⟨some ⟨false, 0, 1⟩, 2048, 77⟩ 1).1 = false ∧
    ¬((⟨false, 0, 1⟩ : Page).pfmemalloc = true ∨
      (⟨false, 0, 1⟩ : Page).nid ≠ (⟨4096, 2048, 0⟩ : IonicEnv).numa_node ∨
      (⟨4096, 2048, 0⟩ : IonicEnv).page_size <
        2048 + kalign 1 (⟨4096, 2048, 0⟩ : IonicEnv).page_split_sz) := by
  decide

/-- C6, amended: recycling returns false exactly when the page was
allocated under memory pressure, or its NUMA node is not the local one, or
the offset advanced by the consumed bytes rounded up to the split
granularity would reach or exceed the granule size; when it returns true,
the offset has advanced by that aligned amount, the device address is
unchanged, and a page reference has been taken. -/
theorem C6_recycle_characterization (env : IonicEnv) (b : IonicBufInfo)
    (p : Page) (used : Nat) (hp : b.page = some p) :
    ((ionic_rx_buf_recycle env b used).1 = false ↔
      (p.pfmemalloc = true ∨ p.nid ≠ env.numa_node ∨
       env.page_size ≤ b.page_offset + kalign used env.page_split_sz)) ∧
    ((ionic_rx_buf_recycle env b used).1 = true →
      (ionic_rx_buf_recycle env b used).2.page_offset =
        b.page_offset + kalign used env.page_split_sz ∧
      (ionic_rx_buf_recycle env b used).2.dma_addr = b.dma_addr ∧
      (ionic_rx_buf_recycle env b used).2.page =
        some { p with refcount := p.refcount + 1 }) := by
  unfold ionic_rx_buf_recycle
  rw [hp]
  by_cases hpf : p.pfmemalloc
  · simp [hpf]
  · by_cases hnid : p.nid = env.numa_node
    · by_cases hsz :
        env.page_size ≤ b.page_offset + kalign used env.page_split_sz
      · simp [hpf, hnid, hsz]
      · simp [hpf, hnid, hsz]
    · simp [hpf, hnid]

/-- C6 witness: the amended characterization at a concrete input — a local,
non-pfmemalloc page at offset 0 consuming 100 bytes is recycled, offset
advanced to 2048, address unchanged, reference taken. -/
theorem C6_witness :
    (ionic_rx_buf_recycle ⟨4096, 2048, 0⟩ ⟨some ⟨false, 0, 1⟩, 0, 77⟩ 100).2.page_offset
      = 0 + kalign 100 2048 ∧
    (ionic_rx_buf_recycle ⟨4096, 2048, 0⟩ ⟨some ⟨false, 0, 1⟩, 0, 77⟩ 100).2.dma_addr
      = 77 := by
  have h := (C6_recycle_characterization ⟨4096, 2048, 0⟩
    ⟨some ⟨false, 0, 1⟩, 0, 77⟩ ⟨false, 0, 1⟩ 100 rfl).2 (by decide)
  exact ⟨h.1, h.2.1⟩

/-- C9: release is idempotent at the empty state — releasing a fragment
whose backing handle is already null is a no-op, releasing a fragment that
has a page leaves it empty and releasing again leaves it empty again — and
a freshly allocated fragment (offset 0, page not from memory pressure,
NUMA-local) recycled with zero consumed bytes succeeds with its device
address and offset unchanged. -/
theorem C9_release_idempotent_roundtrip (b : IonicBufInfo) (env : IonicEnv)
    (p : Page) (dma : Nat) (hpg : 0 < env.page_size)
    (hpf : p.pfmemalloc = false) (hnid : p.nid = env.numa_node) :
    (b.page = none → ionic_rx_page_free b = b) ∧
    (∀ p0, b.page = some p0 →
      ionic_rx_page_free b = emptyBuf ∧
      ionic_rx_page_free (ionic_rx_page_free b) = emptyBuf) ∧
    ((ionic_rx_buf_recycle env ⟨some p, 0, dma⟩ 0).1 = true ∧
     (ionic_rx_buf_recycle env ⟨some p, 0, dma⟩ 0).2.dma_addr = dma ∧
     (ionic_rx_buf_recycle env ⟨some p, 0, dma⟩ 0).2.page_offset = 0) := by
  refine ⟨?_, ?_, ?_⟩
  · intro h
    unfold ionic_rx_page_free
    rw [h]
  · intro p0 h
    unfold ionic_rx_page_free ionic_rx_buf_reset
    rw [h]
    exact ⟨rfl, rfl⟩
  · have hk : kalign 0 env.page_split_sz = 0 := by
      unfold kalign
      rcases Nat.eq_zero_or_pos env.page_split_sz with h0 | hpos
      · simp [h0]
      · have : (0 + env.page_split_sz - 1) / env.page_split_sz = 0 :=
          Nat.div_eq_of_lt (by omega)
        rw [this, Nat.zero_mul]
    unfold ionic_rx_buf_recycle
    simp only [hpf, hnid, hk]
    simp [Nat.not_le.mpr hpg, hpg]

/-- C9 witness: the theorem at a concrete fragment (page present, then
empty) and a concrete fresh fragment. -/
theorem C9_witness :
    ionic_rx_page_free (⟨some ⟨false, 0, 1⟩, 3, 77⟩ : IonicBufInfo) = emptyBuf ∧
    ionic_rx_page_free
      (ionic_rx_page_free (⟨some ⟨false, 0, 1⟩, 3, 77⟩ : IonicBufInfo)) = emptyBuf ∧
    (ionic_rx_buf_recycle ⟨4096, 2048, 0⟩ ⟨some ⟨false, 0, 1⟩, 0, 55⟩ 0).1 = true := by
  have h := C9_release_idempotent_roundtrip
    (⟨some ⟨false, 0, 1⟩, 3, 77⟩ : IonicBufInfo) ⟨4096, 2048, 0⟩
    ⟨false, 0, 1⟩ 55 (by decide) rfl rfl
  have h2 := h.2.1 ⟨false, 0, 1⟩ rfl
  exact ⟨h2.1, h2.2, h.2.2.1⟩

/-- C2 counterexample: the claim says a TSO packet of total length L and
segment size S needs ceil(L / S) + 1 descriptors.  For L = 5, S = 2 the
source computes skb->len / gso_size + 1 = 5 / 2 + 1 = 3 by integer
(floor) division, while ceil(5 / 2) + 1 = 4. -/
theorem C2_counterexample :
    (ionic_tx_descs_needed 16 true
        ⟨7, 5, 5, [], 2, 2, false, false, 0, false, false, 0, 0⟩).1 = 3 ∧
    ((5 + 2 - 1) / 2 + 1 : Nat) = 4 ∧ (3 : Int) ≠ Int.ofNat 4 := by
  refine ⟨by decide, by decide, by decide⟩

/-- C2, amended: the TSO descriptor estimate is
floor(skb->len / gso_size) + 1 (which equals ceil + 1 only when the
segment size divides the length); a non-segmented packet whose fragment
count does not exceed the ring's scatter-gather limit is estimated at 1
descriptor. -/
theorem C2_descs_needed (max_sg_elems : Nat) (lin_ok : Bool) (skb : TxSkb) :
    (skb.gso_size ≠ 0 →
      (ionic_tx_descs_needed max_sg_elems lin_ok skb).1 =
        Int.ofNat (skb.len / skb.gso_size + 1)) ∧
    (skb.gso_size = 0 → skb.frags.length ≤ max_sg_elems →
      (ionic_tx_descs_needed max_sg_elems lin_ok skb).1 = 1) := by
  constructor
  · intro h
    unfold ionic_tx_descs_needed
    simp [h]
  · intro h hf
    unfold ionic_tx_descs_needed
    simp [h, hf]

/-- C2 witness: the amended estimate at two concrete packets — a TSO packet
of length 5 with segment size 2 (3 descriptors) and a non-segmented
packet with 3 fragments against a limit of 16 (1 descriptor). -/
theorem C2_witness :
    (ionic_tx_descs_needed 16 true
        ⟨7, 5, 5, [], 2, 2, false, false, 0, false, false, 0, 0⟩).1 =
      Int.ofNat (5 / 2 + 1) ∧
    (ionic_tx_descs_needed 16 true
        ⟨8, 60, 30, [10, 10, 10], 0, 0, false, false, 0, false, false, 0, 0⟩).1 = 1 := by
  constructor
  · exact (C2_descs_needed 16 true
      ⟨7, 5, 5, [], 2, 2, false, false, 0, false, false, 0, 0⟩).1 (by decide)
  · exact (C2_descs_needed 16 true
      ⟨8, 60, 30, [10, 10, 10], 0, 0, false, false, 0, false, false, 0, 0⟩).2
      (by decide) (by decide)

/-- C7: a receive completion with a nonzero status, or one whose frame
length exceeds netdev->mtu + ETH_HLEN (the frame-level maximum transfer
unit the fill path provisions for), is dropped: the drop counter is
incremented, nothing is delivered upstream, no fragment is touched — and
at the service level the completion still counts as work done with the
slot released normally (tail advanced by one). -/
theorem C7_error_frames_dropped (env : IonicEnv) (mtu rx_copybreak : Nat)
    (queue_reset skb_alloc_ok : Bool) (comp : IonicRxqComp)
    (bufs : List IonicBufInfo) (q : IonicQueue RxDescInfo)
    (done_color : Bool)
    (herr : comp.status ≠ 0 ∨ mtu + ETH_HLEN < comp.len) :
    ((ionic_rx_clean env mtu rx_copybreak queue_reset skb_alloc_ok comp bufs).dropped
        = 1 ∧
     (ionic_rx_clean env mtu rx_copybreak queue_reset skb_alloc_ok comp bufs).delivered
        = false ∧
     (ionic_rx_clean env mtu rx_copybreak queue_reset skb_alloc_ok comp bufs).bufs
        = bufs) ∧
    (comp.color = done_color → q.tail_idx ≠ q.head_idx →
     (q.info.getD q.tail_idx default).index = comp.comp_index →
      (ionic_rx_service env mtu rx_copybreak queue_reset skb_alloc_ok
          done_color comp q).1 = true ∧
      (ionic_rx_service env mtu rx_copybreak queue_reset skb_alloc_ok
          done_color comp q).2.1.tail_idx =
        (q.tail_idx + 1) &&& (q.num_descs - 1)) := by
  constructor
  · unfold ionic_rx_clean
    rcases herr with h | h
    · simp [h]
    · by_cases hs : comp.status ≠ 0
      · simp [hs]
      · by_cases hr : queue_reset
        · simp [hs, hr]
        · simp [hs, hr, h]
  · intro hc ht hi
    unfold ionic_rx_service
    simp only [List.getD_eq_getElem?_getD] at hi
    simp [hc, ht, hi]

/-- C7 witness: a completion with status 7 against a one-slot in-flight
ring is dropped yet still consumed as work, advancing tail. -/
theorem C7_witness :
    (ionic_rx_clean ⟨4096, 2048, 0⟩ 1500 256 false true ⟨7, 100, true, 0, 0⟩
        [⟨some ⟨false, 0, 1⟩, 0, 500⟩]).dropped = 1 ∧
    (ionic_rx_service ⟨4096, 2048, 0⟩ 1500 256 false true true
        ⟨7, 100, true, 0, 0⟩
        ⟨4, 2, 0, [⟨0, 0, 0, [], 0, 0, [⟨some ⟨false, 0, 1⟩, 0, 500⟩], none⟩,
                   ⟨1, 0, 0, [], 0, 0, [], none⟩], 2, 0, 0, 0⟩).1 = true := by
  have h := C7_error_frames_dropped ⟨4096, 2048, 0⟩ 1500 256 false true
    ⟨7, 100, true, 0, 0⟩ [⟨some ⟨false, 0, 1⟩, 0, 500⟩]
    ⟨4, 2, 0, [⟨0, 0, 0, [], 0, 0, [⟨some ⟨false, 0, 1⟩, 0, 500⟩], none⟩,
               ⟨1, 0, 0, [], 0, 0, [], none⟩], 2, 0, 0, 0⟩
    true (Or.inl (by decide))
  exact ⟨h.1.1, (h.2 rfl (by decide) (by decide)).1⟩

/-- What happens to one walked receive fragment in ionic_rx_frags: it was
recycled (page kept with one more reference, device address unchanged) or
it was unmapped and reset to empty. -/
def recycledOrReset (b b' : IonicBufInfo) : Prop :=
  b' = emptyBuf ∨
  ∃ p, b.page = some p ∧ b'.dma_addr = b.dma_addr ∧
    b'.page = some { p with refcount := p.refcount + 1 }

/-- When ionic_rx_buf_recycle accepts, the resulting fragment keeps its
page with one more reference, advances its offset by the aligned consumed
size, and keeps its device address. -/
theorem recycle_true_eq (env : IonicEnv) (b : IonicBufInfo) (used : Nat)
    (h : (ionic_rx_buf_recycle env b used).1 = true) :
    ∃ p, b.page = some p ∧
      (ionic_rx_buf_recycle env b used).2 =
        { page := some { p with refcount := p.refcount + 1 },
          page_offset := b.page_offset + kalign used env.page_split_sz,
          dma_addr := b.dma_addr } := by
  rcases hb : b.page with _ | p
  · exfalso
    unfold ionic_rx_buf_recycle at h
    rw [hb] at h
    simp at h
  · refine ⟨p, rfl, ?_⟩
    unfold ionic_rx_buf_recycle at h ⊢
    rw [hb] at h ⊢
    by_cases hpf : p.pfmemalloc
    · simp [hpf] at h
    · by_cases hnid : p.nid = env.numa_node
      · by_cases hsz :
          env.page_size ≤ b.page_offset + kalign used env.page_split_sz
        · simp [hpf, hnid, hsz] at h
        · simp [hpf, hnid, hsz]
      · simp [hpf, hnid] at h

/-- Every fragment walked by a successful ionic_rx_frags pass was either
recycled or unmapped-and-reset, and the fragments past the walk are
untouched. -/
theorem rx_frags_loop_bufs (env : IonicEnv) :
    ∀ (i len : Nat) (bufs : List IonicBufInfo),
      ((ionic_rx_frags_loop env len i bufs).skb).isSome = true →
      List.Forall₂ recycledOrReset (bufs.take i)
        ((ionic_rx_frags_loop env len i bufs).bufs.take i) ∧
      (ionic_rx_frags_loop env len i bufs).bufs.drop i = bufs.drop i := by
  intro i
  induction i with
  | zero =>
    intro len bufs _
    simp [ionic_rx_frags_loop]
  | succ i ih =>
    intro len bufs hs
    match bufs with
    | [] => simp [ionic_rx_frags_loop] at hs
    | b :: rest =>
      match hb : b.page with
      | none =>
        rw [ionic_rx_frags_loop] at hs
        rw [hb] at hs
        simp at hs
      | some p =>
        rw [ionic_rx_frags_loop] at hs ⊢
        rw [hb] at hs ⊢
        simp only at hs ⊢
        have hrec :
            recycledOrReset b
              (if (ionic_rx_buf_recycle env b
                    (min len (env.page_size - b.page_offset))).1 then
                 (ionic_rx_buf_recycle env b
                    (min len (env.page_size - b.page_offset))).2
               else ionic_rx_buf_reset (ionic_rx_buf_recycle env b
                    (min len (env.page_size - b.page_offset))).2) := by
          by_cases hok : (ionic_rx_buf_recycle env b
              (min len (env.page_size - b.page_offset))).1 = true
          · rw [if_pos hok]
            obtain ⟨p', hp', heq⟩ := recycle_true_eq env b _ hok
            right
            exact ⟨p', hp', by rw [heq], by rw [heq]⟩
          · rw [if_neg hok]
            left
            rfl
        revert hs
        match hr : ionic_rx_frags_loop env
            (len - min len (env.page_size - b.page_offset)) i rest with
        | ⟨none, bufs', n⟩ => intro hs; simp at hs
        | ⟨some fs, bufs', n⟩ =>
          intro _
          have ihr := ih (len - min len (env.page_size - b.page_offset)) rest
            (by rw [hr]; rfl)
          rw [hr] at ihr
          simp only at ihr ⊢
          exact ⟨List.Forall₂.cons hrec ihr.1, ihr.2⟩

/-- C8 counterexample: the claim says the linear-copy path submits the
source fragment to the recycling check.  For a valid completion of length
100 with copy-break threshold 256 the copy path is taken but
ionic_rx_buf_recycle is never invoked (the source ionic_rx_copybreak has
no recycle call; the fragment is left in place). -/
theorem C8_counterexample :
    (ionic_rx_clean ⟨4096, 2048, 0⟩ 1500 256 false true ⟨0, 100, true, 0, 0⟩
        [⟨some ⟨false, 0, 1⟩, 0, 500⟩]).path = some RxPath.copy ∧
    (ionic_rx_clean ⟨4096, 2048, 0⟩ 1500 256 false true ⟨0, 100, true, 0, 0⟩
        [⟨some ⟨false, 0, 1⟩, 0, 500⟩]).recycle_checks = 0 ∧
    ¬(1 ≤ (ionic_rx_clean ⟨4096, 2048, 0⟩ 1500 256 false true
        ⟨0, 100, true, 0, 0⟩
        [⟨some ⟨false, 0, 1⟩, 0, 500⟩]).recycle_checks) := by
  refine ⟨by decide, by decide, by decide⟩

/-- C8, amended: a validated completion of length at most the copy-break
threshold is built by the linear-copy path, which leaves every fragment in
place untouched (no recycling check); a longer one is built by the
fragment-chain path, where — when the build succeeds — every walked
fragment is either recycled or unmapped and reset, the rest untouched.
Length 100 against threshold 256 takes the copy path; against threshold 64
it takes the fragment-chain path. -/
theorem C8_copybreak_path_selection (env : IonicEnv) (mtu rx_copybreak : Nat)
    (skb_alloc_ok : Bool) (comp : IonicRxqComp) (bufs : List IonicBufInfo)
    (h0 : comp.status = 0) (hlen : comp.len ≤ mtu + ETH_HLEN) :
    (comp.len ≤ rx_copybreak →
      (ionic_rx_clean env mtu rx_copybreak false skb_alloc_ok comp bufs).path
          = some RxPath.copy ∧
      (ionic_rx_clean env mtu rx_copybreak false skb_alloc_ok comp bufs).bufs
          = bufs ∧
      (ionic_rx_clean env mtu rx_copybreak false skb_alloc_ok comp bufs).recycle_checks
          = 0) ∧
    (rx_copybreak < comp.len →
      (ionic_rx_clean env mtu rx_copybreak false skb_alloc_ok comp bufs).path
          = some RxPath.frags ∧
      ((ionic_rx_clean env mtu rx_copybreak false skb_alloc_ok comp bufs).delivered
          = true →
        List.Forall₂ recycledOrReset (bufs.take (comp.num_sg_elems + 1))
          ((ionic_rx_clean env mtu rx_copybreak false skb_alloc_ok comp
              bufs).bufs.take (comp.num_sg_elems + 1)) ∧
        (ionic_rx_clean env mtu rx_copybreak false skb_alloc_ok comp
            bufs).bufs.drop (comp.num_sg_elems + 1) =
          bufs.drop (comp.num_sg_elems + 1))) := by
  have hns : ¬(comp.status ≠ 0) := by simp [h0]
  have hnl : ¬(mtu + ETH_HLEN < comp.len) := Nat.not_lt.mpr hlen
  constructor
  · intro hcb
    unfold ionic_rx_clean
    rw [if_neg hns, if_neg (by simp), if_neg hnl, if_pos hcb]
    rcases ionic_rx_copybreak skb_alloc_ok bufs comp.len with _ | v
    · exact ⟨rfl, rfl, rfl⟩
    · exact ⟨rfl, rfl, rfl⟩
  · intro hcb
    have hncb : ¬(comp.len ≤ rx_copybreak) := Nat.not_le.mpr hcb
    unfold ionic_rx_clean
    rw [if_neg hns, if_neg (by simp), if_neg hnl, if_neg hncb]
    rcases hr : ionic_rx_frags env skb_alloc_ok comp.num_sg_elems bufs comp.len
      with ⟨_ | fs, bufs', n⟩
    · exact ⟨rfl, fun hd => by simp at hd⟩
    · refine ⟨rfl, fun _ => ?_⟩
      unfold ionic_rx_frags at hr
      rcases skb_alloc_ok with _ | _
      · simp at hr
      · simp only [Bool.not_true, Bool.false_eq_true, if_false] at hr
        have h := rx_frags_loop_bufs env (comp.num_sg_elems + 1) comp.len bufs
          (by rw [hr]; rfl)
        rw [hr] at h
        exact h

/-- C8 witness: the amended selection at length 100 with thresholds 256
(copy path, fragment untouched) and 64 (fragment-chain path). -/
theorem C8_witness :
    (ionic_rx_clean ⟨4096, 2048, 0⟩ 1500 256 false true ⟨0, 100, true, 0, 0⟩
        [⟨some ⟨false, 0, 1⟩, 0, 500⟩]).path = some RxPath.copy ∧
    (ionic_rx_clean ⟨4096, 2048, 0⟩ 1500 64 false true ⟨0, 100, true, 0, 0⟩
        [⟨some ⟨false, 0, 1⟩, 0, 500⟩]).path = some RxPath.frags := by
  constructor
  · exact ((C8_copybreak_path_selection ⟨4096, 2048, 0⟩ 1500 256 true
      ⟨0, 100, true, 0, 0⟩ [⟨some ⟨false, 0, 1⟩, 0, 500⟩] rfl
      (by decide)).1 (by decide)).1
  · exact ((C8_copybreak_path_selection ⟨4096, 2048, 0⟩ 1500 64 true
      ⟨0, 100, true, 0, 0⟩ [⟨some ⟨false, 0, 1⟩, 0, 500⟩] rfl
      (by decide)).2 (by decide)).1

/-- C4: the receive completion handler filters — reporting no work and
leaving the queue exactly as it was — whenever the completion color does
not match the expected done color, or the ring is empty (tail == head), or
the completion index does not match the oldest in-flight slot's index; and
when all three checks pass it reports work done, advances tail by one
(modulo the power-of-two ring size) and leaves head alone. -/
theorem C4_rx_service_validation (env : IonicEnv) (mtu rx_copybreak : Nat)
    (queue_reset skb_alloc_ok done_color : Bool) (comp : IonicRxqComp)
    (q : IonicQueue RxDescInfo) (m : Nat) (hN : q.num_descs = 2 ^ m) :
    ((comp.color ≠ done_color ∨ q.tail_idx = q.head_idx ∨
      (q.info.getD q.tail_idx default).index ≠ comp.comp_index) →
      ionic_rx_service env mtu rx_copybreak queue_reset skb_alloc_ok
        done_color comp q = (false, q, none)) ∧
    (comp.color = done_color → q.tail_idx ≠ q.head_idx →
     (q.info.getD q.tail_idx default).index = comp.comp_index →
      (ionic_rx_service env mtu rx_copybreak queue_reset skb_alloc_ok
          done_color comp q).1 = true ∧
      (ionic_rx_service env mtu rx_copybreak queue_reset skb_alloc_ok
          done_color comp q).2.1.tail_idx = (q.tail_idx + 1) % q.num_descs ∧
      (ionic_rx_service env mtu rx_copybreak queue_reset skb_alloc_ok
          done_color comp q).2.1.head_idx = q.head_idx) := by
  constructor
  · intro hmis
    unfold ionic_rx_service
    rcases hmis with hc | ht | hi
    · rw [if_pos hc]
    · by_cases hc : comp.color ≠ done_color
      · rw [if_pos hc]
      · rw [if_neg hc, if_pos ht]
    · by_cases hc : comp.color ≠ done_color
      · rw [if_pos hc]
      · rw [if_neg hc]
        by_cases ht : q.tail_idx = q.head_idx
        · rw [if_pos ht]
        · rw [if_neg ht, if_pos hi]
  · intro hc ht hi
    unfold ionic_rx_service
    rw [if_neg (by simp [hc]), if_neg ht,
        if_neg (by simp only [List.getD_eq_getElem?_getD] at hi; simp [hi])]
    refine ⟨rfl, ?_, rfl⟩
    show (q.tail_idx + 1) &&& (q.num_descs - 1) = (q.tail_idx + 1) % q.num_descs
    rw [hN]
    exact Nat.and_pow_two_sub_one_eq_mod _ m

/-- C4 witness: a 4-slot ring with two in-flight descriptors — a
wrong-color completion is a no-op, and the matching completion advances
tail from 0 to 1. -/
theorem C4_witness :
    ionic_rx_service ⟨4096, 2048, 0⟩ 1500 256 false true true
        ⟨0, 100, false, 0, 0⟩
        ⟨4, 2, 0, [⟨0, 0, 0, [], 0, 0, [⟨some ⟨false, 0, 1⟩, 0, 500⟩], none⟩,
                   ⟨1, 0, 0, [], 0, 0, [], none⟩], 2, 0, 0, 0⟩ =
      (false, ⟨4, 2, 0, [⟨0, 0, 0, [], 0, 0, [⟨some ⟨false, 0, 1⟩, 0, 500⟩], none⟩,
                         ⟨1, 0, 0, [], 0, 0, [], none⟩], 2, 0, 0, 0⟩, none) ∧
    (ionic_rx_service ⟨4096, 2048, 0⟩ 1500 256 false true true
        ⟨0, 100, true, 0, 0⟩
        ⟨4, 2, 0, [⟨0, 0, 0, [], 0, 0, [⟨some ⟨false, 0, 1⟩, 0, 500⟩], none⟩,
                   ⟨1, 0, 0, [], 0, 0, [], none⟩], 2, 0, 0, 0⟩).2.1.tail_idx = 1 := by
  constructor
  · exact (C4_rx_service_validation ⟨4096, 2048, 0⟩ 1500 256 false true true
      ⟨0, 100, false, 0, 0⟩
      ⟨4, 2, 0, [⟨0, 0, 0, [], 0, 0, [⟨some ⟨false, 0, 1⟩, 0, 500⟩], none⟩,
                 ⟨1, 0, 0, [], 0, 0, [], none⟩], 2, 0, 0, 0⟩ 2 rfl).1
      (Or.inl (by decide))
  · have h := (C4_rx_service_validation ⟨4096, 2048, 0⟩ 1500 256 false true true
      ⟨0, 100, true, 0, 0⟩
      ⟨4, 2, 0, [⟨0, 0, 0, [], 0, 0, [⟨some ⟨false, 0, 1⟩, 0, 500⟩], none⟩,
                 ⟨1, 0, 0, [], 0, 0, [], none⟩], 2, 0, 0, 0⟩ 2 rfl).2
      rfl (by decide) (by decide)
    exact h.2.1

/-- When both the first space check and the post-barrier re-check see too
little room, ionic_maybe_stop_tx bumps the stop counter, leaves the
subqueue stopped and returns 1. -/
theorem maybe_stop_tx_full (q q2 : IonicQueue TxDescInfo) (sb : Bool)
    (n : Nat) (h1 : ionic_q_has_space q n = false)
    (h2 : ionic_q_has_space q2 n = false) :
    ionic_maybe_stop_tx q q2 sb n =
      ⟨1, { q with stop := q.stop + 1 }, true, true⟩ := by
  unfold ionic_maybe_stop_tx
  rw [if_neg (by simp [h1]), if_neg (by simp [h2])]

/-- C3: a send whose descriptor estimate exceeds the available ring space
returns NETDEV_TX_BUSY, posts nothing, leaves head, tail, the slot array
and the mapping state untouched, rings no doorbell, and leaves the
upstream subqueue stopped — and ionic_maybe_stop_tx itself only concludes
the ring is full after re-checking once (after the barrier): if the
re-check sees space, the queue is woken again and the send proceeds. -/
theorem C3_busy_send_all_or_nothing (skb skb1 : TxSkb)
    (q : IonicQueue TxDescInfo) (st : TxEncState)
    (subq_stopped xmit_more linearize_ok cow_ok : Bool)
    (nd : Int) (lcount : Nat)
    (hd : ionic_tx_descs_needed q.max_sg_elems linearize_ok skb =
      (nd, skb1, lcount))
    (h0 : 0 ≤ nd)
    (h1 : ionic_q_has_space q nd.toNat = false) :
    (ionic_start_xmit true skb q st subq_stopped xmit_more linearize_ok
        cow_ok).ret = NETDEV_TX_BUSY ∧
    (ionic_start_xmit true skb q st subq_stopped xmit_more linearize_ok
        cow_ok).q.head_idx = q.head_idx ∧
    (ionic_start_xmit true skb q st subq_stopped xmit_more linearize_ok
        cow_ok).q.tail_idx = q.tail_idx ∧
    (ionic_start_xmit true skb q st subq_stopped xmit_more linearize_ok
        cow_ok).q.info = q.info ∧
    (ionic_start_xmit true skb q st subq_stopped xmit_more linearize_ok
        cow_ok).posted = 0 ∧
    (ionic_start_xmit true skb q st subq_stopped xmit_more linearize_ok
        cow_ok).st = st ∧
    (ionic_start_xmit true skb q st subq_stopped xmit_more linearize_ok
        cow_ok).subq_stopped = true ∧
    (ionic_start_xmit true skb q st subq_stopped xmit_more linearize_ok
        cow_ok).dbell = false ∧
    (∀ qb : IonicQueue TxDescInfo, ionic_q_has_space qb nd.toNat = true →
      (ionic_maybe_stop_tx q qb subq_stopped nd.toNat).stopped = 0 ∧
      (ionic_maybe_stop_tx q qb subq_stopped nd.toNat).rechecked = true) := by
  have hstop := maybe_stop_tx_full q q subq_stopped nd.toNat h1 h1
  have hmain : ionic_start_xmit true skb q st subq_stopped xmit_more
      linearize_ok cow_ok =
      ⟨NETDEV_TX_BUSY, { q with stop := q.stop + 1 }, st, false, true, 0,
       false⟩ := by
    unfold ionic_start_xmit
    simp [hd, hstop, Int.not_lt.mpr h0]
  refine ⟨by rw [hmain], by rw [hmain], by rw [hmain], by rw [hmain],
          by rw [hmain], by rw [hmain], by rw [hmain], by rw [hmain], ?_⟩
  intro qb hqb
  unfold ionic_maybe_stop_tx
  rw [if_neg (by simp [h1]), if_pos hqb]
  exact ⟨rfl, rfl⟩

/-- C3 witness: a packet needing 5 descriptors (TSO length 8, segment size
2) sent into an 8-slot ring with only 3 free slots returns busy with head
unchanged and nothing posted, and a post-barrier view with room makes the
re-check wake the queue instead. -/
theorem C3_witness :
    (ionic_start_xmit true ⟨44, 8, 8, [], 2, 2, false, false, 0, false, false, 0, 0⟩
        ⟨8, 4, 0, [], 16, 0, 0, 0⟩ ⟨[some 1], []⟩ false false true true).ret
      = NETDEV_TX_BUSY ∧
    (ionic_start_xmit true ⟨44, 8, 8, [], 2, 2, false, false, 0, false, false, 0, 0⟩
        ⟨8, 4, 0, [], 16, 0, 0, 0⟩ ⟨[some 1], []⟩ false false true true).q.head_idx
      = 4 ∧
    (ionic_start_xmit true ⟨44, 8, 8, [], 2, 2, false, false, 0, false, false, 0, 0⟩
        ⟨8, 4, 0, [], 16, 0, 0, 0⟩ ⟨[some 1], []⟩ false false true true).posted
      = 0 := by
  have h := C3_busy_send_all_or_nothing
    ⟨44, 8, 8, [], 2, 2, false, false, 0, false, false, 0, 0⟩
    ⟨44, 8, 8, [], 2, 2, false, false, 0, false, false, 0, 0⟩
    ⟨8, 4, 0, [], 16, 0, 0, 0⟩ ⟨[some 1], []⟩ false false true true
    5 0 (by decide) (by decide) (by decide)
  exact ⟨h.1, h.2.1, h.2.2.2.2.1⟩

/-- When the scatter-gather fill loop fails, the last element it wrote is
the zeroed one. -/
theorem rx_fill_sg_failed_last_zero (env : IonicEnv) (max_sg_elems : Nat) :
    ∀ (bufs : List IonicBufInfo) (oracle : List AllocOutcome)
      (remain j : Nat),
      (ionic_rx_fill_sg env max_sg_elems oracle remain j bufs).1 = true →
      ∃ pre, (ionic_rx_fill_sg env max_sg_elems oracle remain j bufs).2.1
        = pre ++ [(0, 0)] := by
  intro bufs
  induction bufs with
  | nil =>
    intro oracle remain j h
    simp [ionic_rx_fill_sg] at h
  | cons b rest ih =>
    intro oracle remain j h
    rw [ionic_rx_fill_sg] at h ⊢
    by_cases hstop : remain = 0 ∨ max_sg_elems ≤ j
    · rw [if_pos hstop] at h
      simp at h
    · rw [if_neg hstop] at h ⊢
      rcases ha : ionic_rx_fill_alloc oracle b with ⟨err, b1, o2⟩
      simp only [] at h ⊢
      rw [ha] at h
      simp only [] at h
      by_cases herr : err ≠ 0
      · rw [if_pos herr]
        exact ⟨[], rfl⟩
      · rw [if_neg herr] at h ⊢
        simp only [] at h ⊢
        obtain ⟨pre, hpre⟩ := ih o2
          (remain - min remain (env.page_size - b1.page_offset)) (j + 1) h
        exact ⟨(b1.dma_addr + b1.page_offset,
                min remain (env.page_size - b1.page_offset)) :: pre,
               by rw [hpre, List.cons_append]⟩

/-- C10: a receive-ring fill pass rings the end-of-pass doorbell exactly
when no allocation or mapping failure interrupted it — an aborted pass
returns at once without signaling the device, leaving the descriptors it
already posted unsignaled until a later pass completes — and the slot on
which the failure happened had the element being written zeroed: the main
descriptor address and length when the first fragment failed, the
scatter-gather element (as the last one written) otherwise. -/
theorem C10_fill_abort_no_doorbell (env : IonicEnv) (mtu : Nat)
    (q : IonicQueue RxDescInfo) (oracle : List AllocOutcome) :
    ((ionic_rx_fill env mtu q oracle).2.1 =
      !(ionic_rx_fill env mtu q oracle).1) ∧
    (∀ (max_sg len : Nat) (oracle' : List AllocOutcome) (d : RxDescInfo),
      (ionic_rx_fill_slot env max_sg len oracle' d).1 = true →
      ((ionic_rx_fill_slot env max_sg len oracle' d).2.1.desc_addr = 0 ∧
       (ionic_rx_fill_slot env max_sg len oracle' d).2.1.desc_len = 0) ∨
      (∃ pre, (ionic_rx_fill_slot env max_sg len oracle' d).2.1.sg_elems
        = pre ++ [(0, 0)])) := by
  constructor
  · unfold ionic_rx_fill
    rcases hl : ionic_rx_fill_loop env (mtu + ETH_HLEN)
        (ionic_q_space_avail q) q oracle with ⟨ab, q', o'⟩
    rcases ab with _ | _
    · rfl
    · rfl
  · intro max_sg len oracle' d h
    unfold ionic_rx_fill_slot at h ⊢
    rcases hb : d.bufs with _ | ⟨b, rest⟩
    · rw [hb] at h
      exact Or.inl ⟨rfl, rfl⟩
    · rw [hb] at h
      rcases ha : ionic_rx_fill_alloc oracle' b with ⟨err, b1, o2⟩
      simp only [] at h ⊢
      rw [ha] at h
      simp only [ha]
      by_cases herr : err ≠ 0
      · rw [if_pos herr]
        exact Or.inl ⟨rfl, rfl⟩
      · rw [if_neg herr] at h ⊢
        simp only [] at h ⊢
        by_cases hf : (ionic_rx_fill_sg env max_sg o2
            (len - min len (env.page_size - b1.page_offset)) 0 rest).1 = true
        · rw [if_pos hf]
          right
          obtain ⟨pre, hpre⟩ := rx_fill_sg_failed_last_zero env max_sg rest o2
            (len - min len (env.page_size - b1.page_offset)) 0 hf
          exact ⟨pre, hpre⟩
        · rw [if_neg hf] at h
          simp at h

/-- C10 witness: a 4-slot ring needing 3 fills whose second page
allocation fails — the pass aborts without the doorbell — and a slot whose
first allocation fails has its descriptor address and length zeroed. -/
theorem C10_witness :
    (ionic_rx_fill ⟨4096, 2048, 0⟩ 1500
        ⟨4, 0, 0, [⟨0, 0, 0, [], 0, 0, [⟨none, 0, 0⟩], none⟩,
                   ⟨1, 0, 0, [], 0, 0, [⟨none, 0, 0⟩], none⟩,
                   ⟨2, 0, 0, [], 0, 0, [⟨none, 0, 0⟩], none⟩,
                   ⟨3, 0, 0, [], 0, 0, [⟨none, 0, 0⟩], none⟩], 2, 0, 0, 0⟩
        [.ok ⟨false, 0, 1⟩ 100, .allocFail]).2.1 = false ∧
    (ionic_rx_fill_slot ⟨4096, 2048, 0⟩ 2 1514 [.allocFail]
        ⟨0, 7, 9, [], 0, 0, [⟨none, 0, 0⟩], none⟩).2.1.desc_addr = 0 := by
  constructor
  · have h := (C10_fill_abort_no_doorbell ⟨4096, 2048, 0⟩ 1500
      ⟨4, 0, 0, [⟨0, 0, 0, [], 0, 0, [⟨none, 0, 0⟩], none⟩,
                 ⟨1, 0, 0, [], 0, 0, [⟨none, 0, 0⟩], none⟩,
                 ⟨2, 0, 0, [], 0, 0, [⟨none, 0, 0⟩], none⟩,
                 ⟨3, 0, 0, [], 0, 0, [⟨none, 0, 0⟩], none⟩], 2, 0, 0, 0⟩
      [.ok ⟨false, 0, 1⟩ 100, .allocFail]).1
    rw [h]
    decide
  · have h := (C10_fill_abort_no_doorbell ⟨4096, 2048, 0⟩ 1500
      ⟨4, 0, 0, [], 2, 0, 0, 0⟩ []).2 2 1514 [.allocFail]
      ⟨0, 7, 9, [], 0, 0, [⟨none, 0, 0⟩], none⟩ (by decide)
    rcases h with ⟨h1, _⟩ | ⟨pre, hpre⟩
    · exact h1
    · have hz : (ionic_rx_fill_slot ⟨4096, 2048, 0⟩ 2 1514 [.allocFail]
          ⟨0, 7, 9, [], 0, 0, [⟨none, 0, 0⟩], none⟩).2.1.sg_elems = [] := by
        decide
      rw [hz] at hpre
      simp at hpre

/-- Adding a nonzero offset smaller than the modulus moves a reduced index
to a different reduced index. -/
theorem mod_add_ne_self {t d n : Nat} (ht : t < n) (hd0 : 0 < d)
    (hdn : d < n) : (t + d) % n ≠ t := by
  intro h
  by_cases hlt : t + d < n
  · rw [Nat.mod_eq_of_lt hlt] at h
    omega
  · have h2n : t + d < 2 * n := by omega
    have hsub : (t + d) % n = t + d - n := by
      rw [Nat.mod_eq_sub_mod (by omega), Nat.mod_eq_of_lt (by omega)]
    rw [hsub] at h
    omega

/-- getD commutes with set at a different position. -/
theorem getD_set_ne {α : Type} [Inhabited α] (l : List α) (i j : Nat) (x : α)
    (h : i ≠ j) : (l.set i x).getD j default = l.getD j default := by
  simp [List.getD_eq_getElem?_getD, List.getElem?_set_ne h]

/-- The pop loop of ionic_tx_service, on a packet group of k + 1 in-flight
slots starting at tail whose first k slots neither match the completion
index nor carry a callback argument, and whose last slot matches and
carries the skb: it pops exactly those k + 1 slots, releasing the skb once
(on the last pop) and nothing on the earlier pops, and leaves tail just
past the group. -/
theorem tx_service_loop_group (m : Nat) :
    ∀ (k fuel : Nat) (q : IonicQueue TxDescInfo) (active : List Nat)
      (comp skb : Nat),
      q.num_descs = 2 ^ m →
      q.info.length = q.num_descs →
      q.tail_idx < q.num_descs →
      k < q.num_descs →
      k < fuel →
      (∀ j, j < k →
        (q.info.getD ((q.tail_idx + j) % q.num_descs) default).index ≠ comp ∧
        (q.info.getD ((q.tail_idx + j) % q.num_descs) default).cb_arg = none) →
      (q.info.getD ((q.tail_idx + k) % q.num_descs) default).index = comp →
      (q.info.getD ((q.tail_idx + k) % q.num_descs) default).cb_arg
        = some skb →
      (ionic_tx_service_loop comp fuel q active).2.2 =
        List.replicate k none ++ [some skb] ∧
      (ionic_tx_service_loop comp fuel q active).1.tail_idx =
        (q.tail_idx + (k + 1)) % q.num_descs := by
  intro k
  induction k with
  | zero =>
    intro fuel q active comp skb hN hlen htail _hkN hfuel _hgrp hlast harg
    match fuel, hfuel with
    | fuel + 1, _ =>
      rw [Nat.add_zero, Nat.mod_eq_of_lt htail] at hlast harg
      rw [ionic_tx_service_loop, if_pos hlast]
      refine ⟨by rw [harg]; rfl, ?_⟩
      show (q.tail_idx + 1) &&& (q.num_descs - 1) = _
      rw [hN]
      exact Nat.and_pow_two_sub_one_eq_mod _ m
  | succ k ih =>
    intro fuel q active comp skb hN hlen htail hkN hfuel hgrp hlast harg
    match fuel, hfuel with
    | fuel + 1, hfuel =>
      have hNpos : 0 < q.num_descs := by
        rw [hN]
        exact Nat.pos_pow_of_pos m (by omega)
      have h0 := hgrp 0 (Nat.succ_pos k)
      rw [Nat.add_zero, Nat.mod_eq_of_lt htail] at h0
      have hq'descs : (ionic_tx_service_pop q).num_descs = q.num_descs := rfl
      have hq'tail : (ionic_tx_service_pop q).tail_idx
          = (q.tail_idx + 1) % q.num_descs := by
        show (q.tail_idx + 1) &&& (q.num_descs - 1) = _
        rw [hN]
        exact Nat.and_pow_two_sub_one_eq_mod _ m
      have hq'getD : ∀ i, i ≠ q.tail_idx →
          (ionic_tx_service_pop q).info.getD i default
            = q.info.getD i default := by
        intro i hi
        exact getD_set_ne _ _ _ _ (fun h => hi h.symm)
      have hshift : ∀ j, ((ionic_tx_service_pop q).tail_idx + j)
            % (ionic_tx_service_pop q).num_descs
          = (q.tail_idx + (j + 1)) % q.num_descs := by
        intro j
        rw [hq'descs, hq'tail, Nat.mod_add_mod]
        congr 1
        omega
      have hne : ∀ j, j + 1 < q.num_descs →
          (q.tail_idx + (j + 1)) % q.num_descs ≠ q.tail_idx := by
        intro j hj
        exact mod_add_ne_self htail (Nat.succ_pos j) hj
      have ihres := ih fuel (ionic_tx_service_pop q)
        (ionic_tx_clean active
          { q.info.getD q.tail_idx default with bytes := 0 }
          (q.info.getD q.tail_idx default).cb_arg).1 comp skb
        (by rw [hq'descs, hN])
        (by show (q.info.set _ _).length = (ionic_tx_service_pop q).num_descs
            rw [List.length_set, hq'descs]
            exact hlen)
        (by rw [hq'tail, hq'descs]; exact Nat.mod_lt _ hNpos)
        (by rw [hq'descs]; omega)
        (by omega)
        (by
          intro j hj
          rw [hshift j, hq'getD _ (hne j (by omega))]
          exact hgrp (j + 1) (by omega))
        (by
          rw [hshift k, hq'getD _ (hne k (by omega))]
          exact hlast)
        (by
          rw [hshift k, hq'getD _ (hne k (by omega))]
          exact harg)
      rw [ionic_tx_service_loop, if_neg h0.1]
      refine ⟨?_, ?_⟩
      · show (q.info.getD q.tail_idx default).cb_arg :: _ = _
        rw [h0.2]
        exact congrArg (List.cons none) ihres.1
      · refine Eq.trans ihres.2 ?_
        rw [hq'descs, hq'tail, Nat.mod_add_mod]
        congr 1
        omega

/-- Filtering the Somes out of a run of k nones leaves nothing. -/
theorem filterMap_id_replicate_none {α : Type} (k : Nat) :
    (List.replicate k (none : Option α)).filterMap id = [] := by
  induction k with
  | zero => rfl
  | succ k ih => simp [List.replicate_succ, ih]

/-- getD after set at the same in-bounds position yields the new value. -/
theorem getD_set_self {α : Type} [Inhabited α] (l : List α) (i : Nat) (x : α)
    (h : i < l.length) : (l.set i x).getD i default = x := by
  simp [List.getD_eq_getElem?_getD, List.getElem?_set_self h]

/-- C5: a transmit completion whose color matches closes a whole packet
group at once — with k + 1 in-flight slots from tail whose first k neither
match the completion index nor carry a callback argument and whose last
matches and carries the skb, the handler pops exactly those k + 1 slots,
releases nothing on the first k pops and the skb on the last (so the skb
is released exactly once), and leaves tail just past the group; and
ionic_tx_tso_post attaches the skb as the callback argument of the
descriptor it posts exactly when that descriptor is the done (last)
descriptor of its packet. -/
theorem C5_tx_service_group_single_release (m k : Nat)
    (q : IonicQueue TxDescInfo) (active : List Nat) (comp skb : Nat)
    (done_color : Bool)
    (hN : q.num_descs = 2 ^ m) (hlen : q.info.length = q.num_descs)
    (htail : q.tail_idx < q.num_descs) (hkN : k < q.num_descs)
    (hgrp : ∀ j, j < k →
      (q.info.getD ((q.tail_idx + j) % q.num_descs) default).index ≠ comp ∧
      (q.info.getD ((q.tail_idx + j) % q.num_descs) default).cb_arg = none)
    (hlast : (q.info.getD ((q.tail_idx + k) % q.num_descs) default).index
      = comp)
    (harg : (q.info.getD ((q.tail_idx + k) % q.num_descs) default).cb_arg
      = some skb) :
    (ionic_tx_service done_color done_color comp q active).1 = true ∧
    (ionic_tx_service done_color done_color comp q active).2.2.2 =
      List.replicate k none ++ [some skb] ∧
    ((ionic_tx_service done_color done_color comp q active).2.2.2).filterMap
      id = [skb] ∧
    (ionic_tx_service done_color done_color comp q active).2.1.tail_idx =
      (q.tail_idx + (k + 1)) % q.num_descs ∧
    (∀ (q2 : IonicQueue TxDescInfo) (skb2 : TxSkb) (addr nsge len : Nat)
       (elems : List (Nat × Nat)) (hdrlen mss : Nat) (oc : Bool) (vt : Nat)
       (hv start dn xm : Bool), q2.head_idx < q2.info.length →
      (((ionic_tx_tso_post q2 skb2 addr nsge len elems hdrlen mss oc vt hv
          start dn xm).1.info.getD q2.head_idx default).cb_arg
        = some skb2.id ↔ dn = true)) := by
  have hloop := tx_service_loop_group m k q.num_descs q active comp skb hN
    hlen htail hkN (by omega) hgrp hlast harg
  have hsvc : ionic_tx_service done_color done_color comp q active =
      (true, (ionic_tx_service_loop comp q.num_descs q active).1,
       (ionic_tx_service_loop comp q.num_descs q active).2.1,
       (ionic_tx_service_loop comp q.num_descs q active).2.2) := by
    unfold ionic_tx_service
    rw [if_neg (by simp)]
  refine ⟨by rw [hsvc], ?_, ?_, ?_, ?_⟩
  · rw [hsvc]
    exact hloop.1
  · rw [hsvc]
    show ((ionic_tx_service_loop comp q.num_descs q active).2.2).filterMap
      id = [skb]
    rw [hloop.1, List.filterMap_append, filterMap_id_replicate_none]
    rfl
  · rw [hsvc]
    exact hloop.2
  · intro q2 skb2 addr nsge len elems hdrlen mss oc vt hv start dn xm hhd
    unfold ionic_tx_tso_post ionic_q_post
    show ((q2.info.set q2.head_idx _).getD q2.head_idx default).cb_arg
      = some skb2.id ↔ dn = true
    rw [getD_set_self _ _ _ hhd]
    rcases dn with _ | _
    · simp
    · simp

/-- C5 witness: an 8-slot ring with three in-flight slots (indices 0, 1, 2;
only slot 2 carries skb 9) against completion index 2 — the service pops
all three, releases skb 9 exactly once, and leaves tail at 3. -/
theorem C5_witness :
    (ionic_tx_service true true 2
        ⟨8, 3, 0, [⟨0, 0, 0, 0, 0, 0, [], none, 0, 0, 0, 0, 0, 0⟩,
                   ⟨1, 0, 0, 0, 0, 0, [], none, 0, 0, 0, 0, 0, 0⟩,
                   ⟨2, 0, 0, 0, 0, 0, [], some 9, 0, 0, 0, 0, 0, 0⟩,
                   ⟨3, 0, 0, 0, 0, 0, [], none, 0, 0, 0, 0, 0, 0⟩,
                   ⟨4, 0, 0, 0, 0, 0, [], none, 0, 0, 0, 0, 0, 0⟩,
                   ⟨5, 0, 0, 0, 0, 0, [], none, 0, 0, 0, 0, 0, 0⟩,
                   ⟨6, 0, 0, 0, 0, 0, [], none, 0, 0, 0, 0, 0, 0⟩,
                   ⟨7, 0, 0, 0, 0, 0, [], none, 0, 0, 0, 0, 0, 0⟩],
         16, 0, 0, 0⟩ []).2.2.2.filterMap id = [9] ∧
    (ionic_tx_service true true 2
        ⟨8, 3, 0, [⟨0, 0, 0, 0, 0, 0, [], none, 0, 0, 0, 0, 0, 0⟩,
                   ⟨1, 0, 0, 0, 0, 0, [], none, 0, 0, 0, 0, 0, 0⟩,
                   ⟨2, 0, 0, 0, 0, 0, [], some 9, 0, 0, 0, 0, 0, 0⟩,
                   ⟨3, 0, 0, 0, 0, 0, [], none, 0, 0, 0, 0, 0, 0⟩,
                   ⟨4, 0, 0, 0, 0, 0, [], none, 0, 0, 0, 0, 0, 0⟩,
                   ⟨5, 0, 0, 0, 0, 0, [], none, 0, 0, 0, 0, 0, 0⟩,
                   ⟨6, 0, 0, 0, 0, 0, [], none, 0, 0, 0, 0, 0, 0⟩,
                   ⟨7, 0, 0, 0, 0, 0, [], none, 0, 0, 0, 0, 0, 0⟩],
         16, 0, 0, 0⟩ []).2.1.tail_idx = 3 := by
  have h := C5_tx_service_group_single_release 3 2
    ⟨8, 3, 0, [⟨0, 0, 0, 0, 0, 0, [], none, 0, 0, 0, 0, 0, 0⟩,
               ⟨1, 0, 0, 0, 0, 0, [], none, 0, 0, 0, 0, 0, 0⟩,
               ⟨2, 0, 0, 0, 0, 0, [], some 9, 0, 0, 0, 0, 0, 0⟩,
               ⟨3, 0, 0, 0, 0, 0, [], none, 0, 0, 0, 0, 0, 0⟩,
               ⟨4, 0, 0, 0, 0, 0, [], none, 0, 0, 0, 0, 0, 0⟩,
               ⟨5, 0, 0, 0, 0, 0, [], none, 0, 0, 0, 0, 0, 0⟩,
               ⟨6, 0, 0, 0, 0, 0, [], none, 0, 0, 0, 0, 0, 0⟩,
               ⟨7, 0, 0, 0, 0, 0, [], none, 0, 0, 0, 0, 0, 0⟩],
     16, 0, 0, 0⟩ [] 2 9 true rfl rfl (by decide) (by decide)
    (by decide) (by decide) (by decide)
  exact ⟨h.2.2.1, h.2.2.2.1⟩

/-- Whenever ionic_tx_tso fails, it leaves the ring's head index exactly
where it was when the send began: every error exit goes through
err_out_abort, which resets head to the saved pre-packet value (or through
the pre-encoding checksum-preseed failure, which never touched it). -/
theorem ionic_tx_tso_err_head_restored (q : IonicQueue TxDescInfo)
    (skb : TxSkb) (st : TxEncState) (cow_ok xmit_more : Bool)
    (h : (ionic_tx_tso q skb st cow_ok xmit_more).err ≠ 0) :
    (ionic_tx_tso q skb st cow_ok xmit_more).q.head_idx = q.head_idx := by
  rcases cow_ok with _ | _
  · rfl
  · rcases hr : ionic_tx_tso_encode q skb st xmit_more with e | c
    · have heq : ionic_tx_tso q skb st true xmit_more =
          ⟨-12, { e.q with head_idx := q.head_idx },
           { oracle := e.st.oracle,
             active := ionic_tx_tso_rewind e.q (e.q.num_descs + 1) q.head_idx
               e.st.active },
           e.dbell, e.posted⟩ := by
        unfold ionic_tx_tso
        rw [hr]
        rfl
      rw [heq]
    · exfalso
      apply h
      have heq : ionic_tx_tso q skb st true xmit_more =
          ⟨0, c.q, c.st, c.dbell, c.posted⟩ := by
        unfold ionic_tx_tso
        rw [hr]
        rfl
      rw [heq]

/-- Whenever the non-segmented encoder ionic_tx fails, it has posted
nothing: the queue is returned untouched, no doorbell was rung — but the
mapping state is whatever the failed walk left (mappings made before the
failing one are NOT removed). -/
theorem ionic_tx_err_nothing_posted (q : IonicQueue TxDescInfo)
    (skb : TxSkb) (st : TxEncState) (xmit_more : Bool)
    (h : (ionic_tx q skb st xmit_more).err ≠ 0) :
    (ionic_tx q skb st xmit_more).q = q ∧
    (ionic_tx q skb st xmit_more).posted = 0 ∧
    (ionic_tx q skb st xmit_more).dbell = false := by
  rcases hd : (if skb.csum_offload then ionic_tx_calc_csum skb st
               else ionic_tx_calc_no_csum skb st) with ⟨d0, st1⟩
  have heq0 : ∀ r, ionic_tx q skb st xmit_more = r →
      (ionic_tx q skb st xmit_more).q = r.q ∧
      (ionic_tx q skb st xmit_more).posted = r.posted ∧
      (ionic_tx q skb st xmit_more).dbell = r.dbell := by
    intro r hrw
    rw [hrw]
    exact ⟨rfl, rfl, rfl⟩
  rcases d0 with _ | d
  · exact heq0 ⟨-12, q, st1, false, 0⟩ (by unfold ionic_tx; rw [hd])
  · rcases hf : ionic_tx_skb_frags st1 skb.frags (skb.len - skb.headlen)
      with ⟨fr, st2⟩
    rcases fr with _ | elems
    · exact heq0 ⟨-12, q, st2, false, 0⟩
        (by unfold ionic_tx; rw [hd]; simp only []; rw [hf])
    · exfalso
      apply h
      have heq : ionic_tx q skb st xmit_more =
          ⟨0,
           (ionic_q_post q (!xmit_more)
             { d with index := (q.info.getD q.head_idx default).index,
                      elems := elems, cb_arg := some skb.id }).1,
           st2,
           (ionic_q_post q (!xmit_more)
             { d with index := (q.info.getD q.head_idx default).index,
                      elems := elems, cb_arg := some skb.id }).2,
           1⟩ := by
        unfold ionic_tx
        rw [hd]
        simp only []
        rw [hf]
      rw [heq]

/-- A 4-slot transmit ring with fixed slot indices, empty and idle. -/
def txq4 : IonicQueue TxDescInfo :=
  ⟨4, 0, 0, [⟨0, 0, 0, 0, 0, 0, [], none, 0, 0, 0, 0, 0, 0⟩,
             ⟨1, 0, 0, 0, 0, 0, [], none, 0, 0, 0, 0, 0, 0⟩,
             ⟨2, 0, 0, 0, 0, 0, [], none, 0, 0, 0, 0, 0, 0⟩,
             ⟨3, 0, 0, 0, 0, 0, [], none, 0, 0, 0, 0, 0, 0⟩], 16, 0, 0, 0⟩

/-- C1 counterexample, the claim's own scenario: a non-segmented send of a
5-fragment packet (headlen 100, fragments 10/20/30/40/50) whose DMA
mapping fails on the 3rd scatter-gather element.  The head buffer and the
first two fragments were mapped (addresses 1000, 1001, 1002) and the
claim says they are all unmapped and the packet object left with the
caller — but after the send the three mappings are still active (nothing
unwinds ionic_tx_skb_frags) and the skb has been freed by the drop path.
Head is unchanged and nothing was posted, as the claim also says. -/
theorem C1_counterexample :
    (ionic_start_xmit true
        ⟨42, 250, 100, [10, 20, 30, 40, 50], 0, 0, false, false, 0, false,
         false, 0, 0⟩
        txq4 ⟨[some 1000, some 1001, some 1002, none], []⟩
        false false true true).st.active = [1002, 1001, 1000] ∧
    ¬((ionic_start_xmit true
        ⟨42, 250, 100, [10, 20, 30, 40, 50], 0, 0, false, false, 0, false,
         false, 0, 0⟩
        txq4 ⟨[some 1000, some 1001, some 1002, none], []⟩
        false false true true).st.active = []) ∧
    (ionic_start_xmit true
        ⟨42, 250, 100, [10, 20, 30, 40, 50], 0, 0, false, false, 0, false,
         false, 0, 0⟩
        txq4 ⟨[some 1000, some 1001, some 1002, none], []⟩
        false false true true).skb_freed = true ∧
    (ionic_start_xmit true
        ⟨42, 250, 100, [10, 20, 30, 40, 50], 0, 0, false, false, 0, false,
         false, 0, 0⟩
        txq4 ⟨[some 1000, some 1001, some 1002, none], []⟩
        false false true true).q.head_idx = 0 ∧
    (ionic_start_xmit true
        ⟨42, 250, 100, [10, 20, 30, 40, 50], 0, 0, false, false, 0, false,
         false, 0, 0⟩
        txq4 ⟨[some 1000, some 1001, some 1002, none], []⟩
        false false true true).posted = 0 := by
  refine ⟨by decide, by decide, by decide, by decide, by decide⟩

/-- C1, amended: any encoding failure is all-or-nothing from the ring's
perspective — the TSO path walks back every posted descriptor and restores
head to its pre-send value, and the non-segmented path fails before
posting anything, leaving the ring untouched.  On the TSO path the
walk-back performs completion-style cleanup on each posted descriptor,
unmapping its elements without freeing the packet (concretely: a TSO send
that posts two descriptors whose mappings are 11 and 12 and then fails has
both unmapped, head restored and no doorbell).  On the non-segmented path,
however, elements already mapped for the packet are not unmapped, and the
packet object is freed by the caller's drop path rather than returned to
the caller (the claim's 3rd-of-5-fragments scenario ends with the three
earlier mappings still active and the skb freed). -/
theorem C1_mapping_failure_rollback :
    (∀ (q : IonicQueue TxDescInfo) (skb : TxSkb) (st : TxEncState)
       (cow_ok xmit_more : Bool),
      (ionic_tx_tso q skb st cow_ok xmit_more).err ≠ 0 →
      (ionic_tx_tso q skb st cow_ok xmit_more).q.head_idx = q.head_idx) ∧
    (∀ (q : IonicQueue TxDescInfo) (skb : TxSkb) (st : TxEncState)
       (xmit_more : Bool),
      (ionic_tx q skb st xmit_more).err ≠ 0 →
      (ionic_tx q skb st xmit_more).q = q ∧
      (ionic_tx q skb st xmit_more).posted = 0 ∧
      (ionic_tx q skb st xmit_more).dbell = false) ∧
    ((ionic_tx_tso txq4 ⟨43, 14, 14, [], 4, 2, false, false, 0, false, false,
        0, 0⟩ ⟨[some 11, some 12, none], []⟩ true false).err = -12 ∧
     (ionic_tx_tso txq4 ⟨43, 14, 14, [], 4, 2, false, false, 0, false, false,
        0, 0⟩ ⟨[some 11, some 12, none], []⟩ true false).posted = 2 ∧
     (ionic_tx_tso txq4 ⟨43, 14, 14, [], 4, 2, false, false, 0, false, false,
        0, 0⟩ ⟨[some 11, some 12, none], []⟩ true false).st.active = [] ∧
     (ionic_tx_tso txq4 ⟨43, 14, 14, [], 4, 2, false, false, 0, false, false,
        0, 0⟩ ⟨[some 11, some 12, none], []⟩ true false).q.head_idx = 0 ∧
     (ionic_tx_tso txq4 ⟨43, 14, 14, [], 4, 2, false, false, 0, false, false,
        0, 0⟩ ⟨[some 11, some 12, none], []⟩ true false).dbell = false) ∧
    ((ionic_start_xmit true
        ⟨42, 250, 100, [10, 20, 30, 40, 50], 0, 0, false, false, 0, false,
         false, 0, 0⟩
        txq4 ⟨[some 1000, some 1001, some 1002, none], []⟩
        false false true true).st.active = [1002, 1001, 1000] ∧
     (ionic_start_xmit true
        ⟨42, 250, 100, [10, 20, 30, 40, 50], 0, 0, false, false, 0, false,
         false, 0, 0⟩
        txq4 ⟨[some 1000, some 1001, some 1002, none], []⟩
        false false true true).skb_freed = true) := by
  refine ⟨?_, ?_, ?_, ?_⟩
  · intro q skb st cow_ok xmit_more h
    exact ionic_tx_tso_err_head_restored q skb st cow_ok xmit_more h
  · intro q skb st xmit_more h
    exact ionic_tx_err_nothing_posted q skb st xmit_more h
  · refine ⟨by decide, by decide, by decide, by decide, by decide⟩
  · exact ⟨by decide, by decide⟩

/-- C1 witness: the amended theorem's rollback guarantees applied at the
concrete TSO scenario (mapping failure after two posted descriptors) and
at a concrete non-segmented failure. -/
theorem C1_witness :
    (ionic_tx_tso txq4 ⟨43, 14, 14, [], 4, 2, false, false, 0, false, false,
        0, 0⟩ ⟨[some 11, some 12, none], []⟩ true false).q.head_idx = 0 ∧
    (ionic_tx txq4 ⟨42, 250, 100, [10, 20, 30, 40, 50], 0, 0, false, false,
        0, false, false, 0, 0⟩ ⟨[some 1000, some 1001, some 1002, none], []⟩
        false).q = txq4 := by
  constructor
  · exact C1_mapping_failure_rollback.1 txq4
      ⟨43, 14, 14, [], 4, 2, false, false, 0, false, false, 0, 0⟩
      ⟨[some 11, some 12, none], []⟩ true false (by decide)
  · exact (C1_mapping_failure_rollback.2.1 txq4
      ⟨42, 250, 100, [10, 20, 30, 40, 50], 0, 0, false, false, 0, false,
       false, 0, 0⟩
      ⟨[some 1000, some 1001, some 1002, none], []⟩ false (by decide)).1

end IonicTxRx
